import Mathlib

/-!
Verification development for the signal-driven trading pipeline
(risk manager, safety manager, position sizer, signal validator,
trade execution engine).

Modelling conventions used throughout:
* JavaScript numbers are modelled as exact rationals (`ℚ`); integer counters as `ℕ`;
  millisecond clock readings as `ℤ`.
* Fields that the source stores as numeric strings and reads back through
  `parseFloat` (e.g. `availableBalance`, `positionAmt`) are modelled directly
  as their parsed rational value.
* An optional numeric argument is `Option ℚ`; JavaScript truthiness of such a
  value (`undefined`/`0` are falsy) is `numTruthy`.
* Warning / error message strings are modelled as tagged values (one
  constructor per distinct message, carrying the interpolated data), so that
  distinct messages are distinguishable without string reasoning.
* `Date.now()` is an explicit `now : ℤ` parameter; calendar-day components of
  a clock reading are carried in `JsDate`.
* Logging is a no-op and is omitted.
-/

/-- Risk level enumeration `'LOW' | 'MEDIUM' | 'HIGH' | 'CRITICAL'`. -/
inductive RiskLevel
  | LOW
  | MEDIUM
  | HIGH
  | CRITICAL
deriving DecidableEq

/-- Numeric severity of a risk level, for the order LOW < MEDIUM < HIGH < CRITICAL. -/
def RiskLevel.toNat : RiskLevel → ℕ
  | .LOW => 0
  | .MEDIUM => 1
  | .HIGH => 2
  | .CRITICAL => 3

/-- The worse (more severe) of two risk levels. -/
def RiskLevel.worst (a b : RiskLevel) : RiskLevel :=
  if b.toNat ≤ a.toNat then a else b

/-- Signal action `'BUY' | 'SELL' | 'CLOSE'`. -/
inductive SignalAction
  | BUY
  | SELL
  | CLOSE
deriving DecidableEq

/-- Signal strength `'STRONG' | 'MEDIUM' | 'WEAK'`. -/
inductive SignalStrength
  | STRONG
  | MEDIUM
  | WEAK
deriving DecidableEq

/-- JavaScript truthiness of an optional number: `undefined` and `0` are falsy. -/
def numTruthy : Option ℚ → Bool
  | none => false
  | some v => decide (v ≠ 0)

/-- JavaScript `x || d` for an optional number `x`: the default is used when the
value is absent or falsy (zero). -/
def jsNumOr (o : Option ℚ) (d : ℚ) : ℚ :=
  match o with
  | none => d
  | some v => if v = 0 then d else v

/-- JavaScript comparison `num / den > threshold` with IEEE division semantics at
`den = 0`: `x / 0` is `+Inf` for `x > 0` (greater than any finite threshold),
`-Inf` for `x < 0`, and `NaN` for `x = 0` (every comparison false). -/
def jsDivGT (num den threshold : ℚ) : Bool :=
  if den = 0 then decide (0 < num) else decide (threshold < num / den)

/-- The fields of `RiskManagementConfig` read by the risk manager and position sizer. -/
structure RiskManagementConfig where
  maxRiskPerTrade : ℚ
  stopLossPercent : ℚ
  takeProfitPercent : ℚ
  useVolatilityStops : Bool
  riskRewardRatio : ℚ
deriving DecidableEq

/-- `ProcessedSignal`, restricted to the fields the risk manager reads
(`symbol` and `action`). -/
structure ProcessedSignal where
  symbol : String
  action : SignalAction
deriving DecidableEq

/-- `BingXPosition`, restricted to the fields this core reads; `positionAmt` and
`entryPrice` are the `parseFloat`-parsed values of the source's string fields. -/
structure BingXPosition where
  symbol : String
  positionAmt : ℚ
  entryPrice : ℚ
deriving DecidableEq

/-- Warnings pushed by `RiskManager.checkTradeRisk`, one constructor per message. -/
inductive RWarning
  | dailyLossLimitReached
  | maxDrawdownExceeded
  | positionAlreadyExistsForSymbol
  | highVolatilityDetected
deriving DecidableEq

/-- The `RiskCheckResult` interface. The optional `trailingStopPrice` (spread in
only when defined) is an `Option`. -/
structure RiskCheckResult where
  shouldTrade : Bool
  riskLevel : RiskLevel
  warnings : List RWarning
  maxPositionSize : ℚ
  stopLossPrice : ℚ
  takeProfitPrice : ℚ
  trailingStopPrice : Option ℚ
deriving DecidableEq

/-- The mutable fields of `RiskManager` read or written by `checkTradeRisk`. -/
structure RiskManagerState where
  dailyPnL : ℚ
  maxDrawdown : ℚ
  peakBalance : ℚ
deriving DecidableEq

/-- `RiskManager.calculateDrawdown`: returns the drawdown percentage and the
updated state (the method mutates `peakBalance`). -/
def RiskManager.calculateDrawdown (st : RiskManagerState) (currentBalance : ℚ) :
    ℚ × RiskManagerState :=
  if st.peakBalance = 0 then
    (0, { st with peakBalance := currentBalance })
  else if currentBalance > st.peakBalance then
    (0, { st with peakBalance := currentBalance })
  else
    ((st.peakBalance - currentBalance) / st.peakBalance * 100, st)

/-- `RiskManager.calculateRiskAdjustedPositionSize`: a 2%-of-balance base scaled
by a per-level multiplier, divided by price. -/
def RiskManager.calculateRiskAdjustedPositionSize
    (accountBalance price : ℚ) (riskLevel : RiskLevel) : ℚ :=
  let baseSize := accountBalance * 2 / 100
  let multiplier : ℚ :=
    match riskLevel with
    | .LOW => 1
    | .MEDIUM => 7 / 10
    | .HIGH => 4 / 10
    | .CRITICAL => 0
  baseSize * multiplier / price

/-- `RiskManager.calculateStopLevels`: volatility-based distances when a truthy
volatility is supplied and `useVolatilityStops` is on, otherwise fixed
percentage distances; mirrored for non-BUY actions. -/
def RiskManager.calculateStopLevels (cfg : RiskManagementConfig)
    (signal : ProcessedSignal) (currentPrice : ℚ) (volatility : Option ℚ) :
    ℚ × ℚ :=
  let stopLossDistance :=
    if numTruthy volatility && cfg.useVolatilityStops then
      volatility.getD 0 / 100 * currentPrice * 2
    else
      currentPrice * (cfg.stopLossPercent / 100)
  let takeProfitDistance :=
    if numTruthy volatility && cfg.useVolatilityStops then
      (volatility.getD 0 / 100 * currentPrice * 2) * cfg.riskRewardRatio
    else
      currentPrice * (cfg.takeProfitPercent / 100)
  if signal.action = SignalAction.BUY then
    (currentPrice - stopLossDistance, currentPrice + takeProfitDistance)
  else
    (currentPrice + stopLossDistance, currentPrice - takeProfitDistance)

/-- The side union `'LONG' | 'SHORT' | 'BUY' | 'SELL'` accepted by
`calculateTrailingStop`. -/
inductive TrailSide
  | LONG
  | SHORT
  | BUY
  | SELL
deriving DecidableEq

/-- `RiskManager.calculateTrailingStop`: a 1.5×-volatility offset below the
price for long-side positions, above for short-side. -/
def RiskManager.calculateTrailingStop (currentPrice volatility : ℚ)
    (side : TrailSide) : ℚ :=
  let trailingDistance := volatility / 100 * currentPrice * (3 / 2)
  if side = TrailSide.LONG ∨ side = TrailSide.BUY then
    currentPrice - trailingDistance
  else
    currentPrice + trailingDistance

/-- `RiskManager.checkTradeRisk`. The four checks run in source order, each
overwriting `riskLevel` by plain assignment when it fires; the first two also
clear `shouldTrade`. Returns the result together with the updated manager state
(`calculateDrawdown` mutates `peakBalance`). -/
def RiskManager.checkTradeRisk (cfg : RiskManagementConfig)
    (st : RiskManagerState) (signal : ProcessedSignal)
    (currentPrice accountBalance : ℚ) (openPositions : List BingXPosition)
    (volatility : Option ℚ) : RiskCheckResult × RiskManagerState :=
  -- Check daily loss limit
  let fire1 := decide (st.dailyPnL < -(accountBalance * cfg.maxRiskPerTrade / 100))
  let shouldTrade1 := if fire1 then false else true
  let riskLevel1 := if fire1 then RiskLevel.CRITICAL else RiskLevel.LOW
  let warnings1 : List RWarning := if fire1 then [.dailyLossLimitReached] else []
  -- Check maximum drawdown
  let dd := RiskManager.calculateDrawdown st accountBalance
  let fire2 := decide (dd.1 > 10)
  let shouldTrade2 := if fire2 then false else shouldTrade1
  let riskLevel2 := if fire2 then RiskLevel.CRITICAL else riskLevel1
  let warnings2 := if fire2 then warnings1 ++ [.maxDrawdownExceeded] else warnings1
  -- Check position concentration
  let fire3 := decide (0 < (openPositions.filter fun p => p.symbol == signal.symbol).length)
  let riskLevel3 := if fire3 then RiskLevel.HIGH else riskLevel2
  let warnings3 := if fire3 then warnings2 ++ [.positionAlreadyExistsForSymbol] else warnings2
  -- Check volatility
  let fire4 := numTruthy volatility && decide (volatility.getD 0 > 50)
  let riskLevel4 := if fire4 then RiskLevel.HIGH else riskLevel3
  let warnings4 := if fire4 then warnings3 ++ [.highVolatilityDetected] else warnings3
  -- Calculate risk-adjusted position size and stop levels
  let maxPositionSize :=
    RiskManager.calculateRiskAdjustedPositionSize accountBalance currentPrice riskLevel4
  let levels := RiskManager.calculateStopLevels cfg signal currentPrice volatility
  -- Calculate trailing stop if enabled
  let trailingStopPrice : Option ℚ :=
    if cfg.useVolatilityStops && numTruthy volatility then
      some (RiskManager.calculateTrailingStop currentPrice (volatility.getD 0)
        (if signal.action = SignalAction.BUY then TrailSide.LONG else TrailSide.SHORT))
    else
      none
  (⟨shouldTrade2, riskLevel4, warnings4, maxPositionSize, levels.1, levels.2,
    trailingStopPrice⟩, dd.2)

/-- Spec-side: the worst (maximum-severity) level of a list of levels, `LOW` when
none fired.  Follows the spec's words "ordered, worst wins". -/
def worstLevel (ls : List RiskLevel) : RiskLevel :=
  ls.foldl RiskLevel.worst RiskLevel.LOW

/-- Spec-side: the levels assigned by the individual `checkTradeRisk` checks that
fire on the given inputs, in source order (the conditions are verbatim those of
`RiskManager.checkTradeRisk`). -/
def riskFiredLevels (cfg : RiskManagementConfig) (st : RiskManagerState)
    (signal : ProcessedSignal) (accountBalance : ℚ)
    (openPositions : List BingXPosition) (volatility : Option ℚ) :
    List RiskLevel :=
  (if decide (st.dailyPnL < -(accountBalance * cfg.maxRiskPerTrade / 100)) then
    [RiskLevel.CRITICAL] else []) ++
  (if decide ((RiskManager.calculateDrawdown st accountBalance).1 > 10) then
    [RiskLevel.CRITICAL] else []) ++
  (if decide (0 < (openPositions.filter fun p => p.symbol == signal.symbol).length) then
    [RiskLevel.HIGH] else []) ++
  (if numTruthy volatility && decide (volatility.getD 0 > 50) then
    [RiskLevel.HIGH] else [])

/-- The level assigned by the last `checkTradeRisk` check that fires (assignment
semantics of the source), `LOW` when none fires. -/
def riskLastFired (cfg : RiskManagementConfig) (st : RiskManagerState)
    (signal : ProcessedSignal) (accountBalance : ℚ)
    (openPositions : List BingXPosition) (volatility : Option ℚ) : RiskLevel :=
  if numTruthy volatility && decide (volatility.getD 0 > 50) then RiskLevel.HIGH
  else if decide (0 < (openPositions.filter fun p => p.symbol == signal.symbol).length) then
    RiskLevel.HIGH
  else if decide ((RiskManager.calculateDrawdown st accountBalance).1 > 10) then
    RiskLevel.CRITICAL
  else if decide (st.dailyPnL < -(accountBalance * cfg.maxRiskPerTrade / 100)) then
    RiskLevel.CRITICAL
  else RiskLevel.LOW

/-- `SafetyThresholds`. -/
structure SafetyThresholds where
  maxDailyLoss : ℚ
  maxDrawdown : ℚ
  maxOpenPositions : ℕ
  maxPositionSize : ℚ
  maxLeverage : ℚ
  minBalance : ℚ
  maxConsecutiveLosses : ℕ
  maxVolatility : ℚ
  emergencyStopLoss : ℚ
deriving DecidableEq

/-- The circuit-breaker trigger reasons (the source's reason strings), plus the
initial empty string. -/
inductive CBReason
  | emptyReason
  | dailyLossLimitExceeded
  | maxDrawdownExceeded
  | maxConsecutiveLossesReached
deriving DecidableEq

/-- `CircuitBreakerState`. -/
structure CircuitBreakerState where
  isActive : Bool
  triggerTime : ℤ
  triggerReason : CBReason
  cooldownPeriod : ℤ
  autoReset : Bool
deriving DecidableEq

/-- A clock reading together with its calendar-day components
(`getDate` / `getMonth` / `getFullYear` of the corresponding `Date`). -/
structure JsDate where
  ms : ℤ
  day : ℤ
  month : ℤ
  year : ℤ
deriving DecidableEq

/-- A trading-session entry pushed by `startTradingSession`. -/
structure TradingSession where
  startTime : ℤ
  endTime : Option ℤ
  pnl : ℚ
  trades : ℕ
deriving DecidableEq

/-- The mutable fields of `SafetyManager`. -/
structure SafetyManagerState where
  circuitBreaker : CircuitBreakerState
  emergencyStop : Bool
  consecutiveLosses : ℕ
  dailyLoss : ℚ
  lastResetTime : JsDate
  tradingSessions : List TradingSession
deriving DecidableEq

/-- `BingXAccountInfo`, restricted to the field this core reads;
`availableBalance` is the `parseFloat`-parsed value of the source's string field. -/
structure BingXAccountInfo where
  availableBalance : ℚ
deriving DecidableEq

/-- The `RiskMetrics` interface. -/
structure RiskMetrics where
  currentDrawdown : ℚ
  dailyPnL : ℚ
  totalPnL : ℚ
  maxDrawdown : ℚ
  sharpeRatio : ℚ
  volatility : ℚ
  correlation : ℚ
deriving DecidableEq

/-- `TradeRecord`, restricted to the field this core reads (the optional
realized `pnl`). -/
structure TradeRecord where
  pnl : Option ℚ
deriving DecidableEq

/-- Warnings pushed by `SafetyManager.checkSafety`, one constructor per message,
carrying the interpolated value. -/
inductive SWarning
  | emergencyStopIsActive
  | circuitBreakerActiveReason (reason : CBReason)
  | balanceBelowMinimum (balance : ℚ)
  | dailyLossLimitExceeded (dailyLoss : ℚ)
  | maxDrawdownExceeded (drawdown : ℚ)
  | maxOpenPositionsReached (count : ℕ)
  | maxPositionSizeExceeded (value : ℚ)
  | maxConsecutiveLossesReached (count : ℕ)
  | highVolatilityDetected (volatility : ℚ)
  | maxLeverageExceeded (leverage : ℚ)
deriving DecidableEq

/-- The `SafetyStatus` interface. -/
structure SafetyStatus where
  isTradingEnabled : Bool
  circuitBreakerActive : Bool
  emergencyStopActive : Bool
  warnings : List SWarning
  lastCheck : ℤ
  riskLevel : RiskLevel
deriving DecidableEq

/-- `SafetyManager.triggerCircuitBreaker`: replaces the circuit-breaker state with
an active one (30-minute cooldown, auto-reset on, trigger time = now). -/
def SafetyManager.triggerCircuitBreaker (now : ℤ) (reason : CBReason) :
    CircuitBreakerState :=
  { isActive := true
    triggerTime := now
    triggerReason := reason
    cooldownPeriod := 30 * 60 * 1000
    autoReset := true }

/-- `SafetyManager.resetCircuitBreaker`: clears only the active flag. -/
def SafetyManager.resetCircuitBreaker (cb : CircuitBreakerState) :
    CircuitBreakerState :=
  { cb with isActive := false }

/-- `SafetyManager.updateConsecutiveLosses`: the length of the contiguous run of
negative-PnL trades at the end of `recentTrades` (the source scans backwards and
breaks at the first trade whose `pnl` is absent, zero — falsy — or
non-negative). -/
def SafetyManager.updateConsecutiveLosses (recentTrades : List TradeRecord) : ℕ :=
  (recentTrades.reverse.takeWhile fun t =>
    match t.pnl with
    | some v => decide (v < 0)
    | none => false).length

/-- Aggregate notional of the open positions:
`sum(positionAmt * entryPrice)`. -/
def totalPositionValue (openPositions : List BingXPosition) : ℚ :=
  openPositions.foldl (fun sum pos => sum + pos.positionAmt * pos.entryPrice) 0

/-- `SafetyManager.checkSafety`.  Early returns for the emergency stop and a
circuit breaker still in cooldown; otherwise the eight checks run in source
order, each overwriting `riskLevel` by plain assignment when it fires; the
first three also clear `isTradingEnabled`; the daily-loss, drawdown and
consecutive-losses checks re-trigger the circuit breaker.  The stored
consecutive-losses counter is read by its check and only afterwards recomputed
from this call's `recentTrades`.  Returns the status together with the updated
manager state. -/
def SafetyManager.checkSafety (th : SafetyThresholds) (st : SafetyManagerState)
    (accountInfo : BingXAccountInfo) (openPositions : List BingXPosition)
    (riskMetrics : RiskMetrics) (recentTrades : List TradeRecord) (now : ℤ) :
    SafetyStatus × SafetyManagerState :=
  -- Check emergency stop
  if st.emergencyStop then
    (⟨false, false, true, [.emergencyStopIsActive], now, RiskLevel.CRITICAL⟩, st)
  -- Check circuit breaker (early return while in cooldown)
  else if st.circuitBreaker.isActive &&
      decide (now - st.circuitBreaker.triggerTime < st.circuitBreaker.cooldownPeriod) then
    (⟨false, true, false, [.circuitBreakerActiveReason st.circuitBreaker.triggerReason],
      now, RiskLevel.HIGH⟩, st)
  else
    -- cooldown elapsed: auto-reset if enabled, then continue with the checks
    let st1 :=
      if st.circuitBreaker.isActive && st.circuitBreaker.autoReset then
        { st with circuitBreaker := SafetyManager.resetCircuitBreaker st.circuitBreaker }
      else st
    let balance := accountInfo.availableBalance
    -- Check minimum balance
    let c1 := decide (balance < th.minBalance)
    let riskLevel1 := if c1 then RiskLevel.CRITICAL else RiskLevel.LOW
    let warnings1 : List SWarning := if c1 then [.balanceBelowMinimum balance] else []
    let enabled1 := if c1 then false else true
    -- Check daily loss limit
    let c2 := decide (st1.dailyLoss < -th.maxDailyLoss)
    let riskLevel2 := if c2 then RiskLevel.CRITICAL else riskLevel1
    let warnings2 := if c2 then warnings1 ++ [.dailyLossLimitExceeded st1.dailyLoss] else warnings1
    let enabled2 := if c2 then false else enabled1
    let cb2 := if c2 then SafetyManager.triggerCircuitBreaker now .dailyLossLimitExceeded
      else st1.circuitBreaker
    -- Check maximum drawdown
    let c3 := decide (riskMetrics.maxDrawdown > th.maxDrawdown)
    let riskLevel3 := if c3 then RiskLevel.CRITICAL else riskLevel2
    let warnings3 := if c3 then warnings2 ++ [.maxDrawdownExceeded riskMetrics.maxDrawdown] else warnings2
    let enabled3 := if c3 then false else enabled2
    let cb3 := if c3 then SafetyManager.triggerCircuitBreaker now .maxDrawdownExceeded else cb2
    -- Check open positions limit
    let c4 := decide (openPositions.length ≥ th.maxOpenPositions)
    let riskLevel4 := if c4 then RiskLevel.HIGH else riskLevel3
    let warnings4 := if c4 then warnings3 ++ [.maxOpenPositionsReached openPositions.length] else warnings3
    -- Check position size limits
    let tpv := totalPositionValue openPositions
    let c5 := decide (tpv > th.maxPositionSize)
    let riskLevel5 := if c5 then RiskLevel.HIGH else riskLevel4
    let warnings5 := if c5 then warnings4 ++ [.maxPositionSizeExceeded tpv] else warnings4
    -- Check consecutive losses (reads the counter stored by the previous call)
    let c6 := decide (st1.consecutiveLosses ≥ th.maxConsecutiveLosses)
    let riskLevel6 := if c6 then RiskLevel.HIGH else riskLevel5
    let warnings6 := if c6 then warnings5 ++ [.maxConsecutiveLossesReached st1.consecutiveLosses] else warnings5
    let cb6 := if c6 then SafetyManager.triggerCircuitBreaker now .maxConsecutiveLossesReached else cb3
    -- Check volatility
    let c7 := decide (riskMetrics.volatility > th.maxVolatility)
    let riskLevel7 := if c7 then RiskLevel.MEDIUM else riskLevel6
    let warnings7 := if c7 then warnings6 ++ [.highVolatilityDetected riskMetrics.volatility] else warnings6
    -- Check leverage
    let c8 := jsDivGT tpv balance th.maxLeverage
    let riskLevel8 := if c8 then RiskLevel.HIGH else riskLevel7
    let warnings8 := if c8 then warnings7 ++ [.maxLeverageExceeded (tpv / balance)] else warnings7
    -- Update consecutive losses count for the next call
    let newConsecutive := SafetyManager.updateConsecutiveLosses recentTrades
    (⟨enabled3, cb6.isActive, st1.emergencyStop, warnings8, now, riskLevel8⟩,
      { st1 with circuitBreaker := cb6, consecutiveLosses := newConsecutive })

/-- `SafetyManager.updateDailyLoss`: accumulates the pnl; on a calendar-day
change (date, month or year component differs from the last reset) the daily
loss restarts at this pnl alone and the consecutive-losses counter clears. -/
def SafetyManager.updateDailyLoss (st : SafetyManagerState) (pnl : ℚ)
    (now : JsDate) : SafetyManagerState :=
  let st1 := { st with dailyLoss := st.dailyLoss + pnl }
  if st.lastResetTime.day ≠ now.day ∨ st.lastResetTime.month ≠ now.month ∨
      st.lastResetTime.year ≠ now.year then
    { st1 with dailyLoss := pnl, lastResetTime := now, consecutiveLosses := 0 }
  else st1

/-- `SafetyManager.activateEmergencyStop`. -/
def SafetyManager.activateEmergencyStop (st : SafetyManagerState) :
    SafetyManagerState :=
  { st with emergencyStop := true }

/-- `SafetyManager.deactivateEmergencyStop`. -/
def SafetyManager.deactivateEmergencyStop (st : SafetyManagerState) :
    SafetyManagerState :=
  { st with emergencyStop := false }

/-- `SafetyManager.startTradingSession`: pushes a fresh session entry. -/
def SafetyManager.startTradingSession (st : SafetyManagerState) (now : ℤ) :
    SafetyManagerState :=
  { st with tradingSessions :=
      st.tradingSessions ++ [⟨now, none, 0, 0⟩] }

/-- `SafetyManager.endTradingSession`: closes the most recent session entry,
when one exists. -/
def SafetyManager.endTradingSession (st : SafetyManagerState) (pnl : ℚ)
    (trades : ℕ) (now : ℤ) : SafetyManagerState :=
  match st.tradingSessions.getLast? with
  | none => st
  | some s =>
      { st with tradingSessions :=
          st.tradingSessions.dropLast ++ [{ s with endTime := some now, pnl := pnl, trades := trades }] }

/-- The state-mutating operations of `SafetyManager`, for stating latch
invariants across the whole public surface. -/
inductive SafetyOp
  | checkSafetyOp (accountInfo : BingXAccountInfo)
      (openPositions : List BingXPosition) (riskMetrics : RiskMetrics)
      (recentTrades : List TradeRecord) (now : ℤ)
  | triggerCircuitBreakerOp (now : ℤ) (reason : CBReason)
  | resetCircuitBreakerOp
  | activateEmergencyStopOp
  | deactivateEmergencyStopOp
  | updateDailyLossOp (pnl : ℚ) (now : JsDate)
  | startTradingSessionOp (now : ℤ)
  | endTradingSessionOp (pnl : ℚ) (trades : ℕ) (now : ℤ)

/-- The state transition of each `SafetyManager` operation. -/
def applySafetyOp (th : SafetyThresholds) (st : SafetyManagerState) :
    SafetyOp → SafetyManagerState
  | .checkSafetyOp accountInfo openPositions riskMetrics recentTrades now =>
      (SafetyManager.checkSafety th st accountInfo openPositions riskMetrics
        recentTrades now).2
  | .triggerCircuitBreakerOp now reason =>
      { st with circuitBreaker := SafetyManager.triggerCircuitBreaker now reason }
  | .resetCircuitBreakerOp =>
      { st with circuitBreaker := SafetyManager.resetCircuitBreaker st.circuitBreaker }
  | .activateEmergencyStopOp => SafetyManager.activateEmergencyStop st
  | .deactivateEmergencyStopOp => SafetyManager.deactivateEmergencyStop st
  | .updateDailyLossOp pnl now => SafetyManager.updateDailyLoss st pnl now
  | .startTradingSessionOp now => SafetyManager.startTradingSession st now
  | .endTradingSessionOp pnl trades now =>
      SafetyManager.endTradingSession st pnl trades now

/-- The level assigned by the last `checkSafety` check that fires (assignment
semantics of the source), `LOW` when none fires; the conditions are verbatim
those of the non-early-return path of `SafetyManager.checkSafety`. -/
def safetyLastFired (th : SafetyThresholds) (st : SafetyManagerState)
    (accountInfo : BingXAccountInfo) (openPositions : List BingXPosition)
    (riskMetrics : RiskMetrics) : RiskLevel :=
  let balance := accountInfo.availableBalance
  let tpv := totalPositionValue openPositions
  if jsDivGT tpv balance th.maxLeverage then RiskLevel.HIGH
  else if decide (riskMetrics.volatility > th.maxVolatility) then RiskLevel.MEDIUM
  else if decide (st.consecutiveLosses ≥ th.maxConsecutiveLosses) then RiskLevel.HIGH
  else if decide (tpv > th.maxPositionSize) then RiskLevel.HIGH
  else if decide (openPositions.length ≥ th.maxOpenPositions) then RiskLevel.HIGH
  else if decide (riskMetrics.maxDrawdown > th.maxDrawdown) then RiskLevel.CRITICAL
  else if decide (st.dailyLoss < -th.maxDailyLoss) then RiskLevel.CRITICAL
  else if decide (balance < th.minBalance) then RiskLevel.CRITICAL
  else RiskLevel.LOW

/-- The fields of `TradingConfig` read by the position sizer. -/
structure TradingConfig where
  positionSizePercent : ℚ
  maxOpenPositions : ℕ
  leverageMultiplier : ℚ
  maxDailyLoss : ℚ
deriving DecidableEq

/-- The `PositionSizeRequest` interface. -/
structure PositionSizeRequest where
  symbol : String
  price : ℚ
  confidence : ℚ
  signalStrength : SignalStrength
  accountBalance : ℚ
  currentPositions : ℕ
  volatility : Option ℚ
  maxRiskPerTrade : Option ℚ
deriving DecidableEq

/-- The sizing strategy tags used by the sizer. -/
inductive SizingStrategy
  | COMBINED_STRATEGY
  | ZERO_POSITION
deriving DecidableEq

/-- The single warning the sizer pushes, carrying the configured limit. -/
inductive PWarning
  | maxOpenPositionsReached (limit : ℕ)
deriving DecidableEq

/-- The `PositionSizeResult` interface. -/
structure PositionSizeResult where
  quantity : ℚ
  notionalValue : ℚ
  riskAmount : ℚ
  riskPercentage : ℚ
  leverage : ℚ
  strategy : SizingStrategy
  confidence : ℚ
  warnings : List PWarning
deriving DecidableEq

/-- The errors `calculatePositionSize` throws on caller-contract violations. -/
inductive SizerError
  | invalidPrice
  | invalidAccountBalance
deriving DecidableEq

/-- `PositionSizer.getSignalStrengthMultiplier`. -/
def PositionSizer.getSignalStrengthMultiplier : SignalStrength → ℚ
  | .STRONG => 12 / 10
  | .MEDIUM => 1
  | .WEAK => 7 / 10

/-- `PositionSizer.calculateFixedPercentage`. -/
def PositionSizer.calculateFixedPercentage (cfg : TradingConfig)
    (request : PositionSizeRequest) : ℚ :=
  let basePercentage := cfg.positionSizePercent / 100
  let adjustedPercentage :=
    basePercentage * PositionSizer.getSignalStrengthMultiplier request.signalStrength
  request.accountBalance * adjustedPercentage / request.price

/-- `PositionSizer.calculateKellyCriterion`: conservative fractional Kelly with
an assumed 2.5:1 reward-to-risk ratio, scaled to 25% of the raw fraction and
floored at 0. -/
def PositionSizer.calculateKellyCriterion (request : PositionSizeRequest) : ℚ :=
  let winProbability := request.confidence
  let lossProbability := 1 - winProbability
  let winLossRatio : ℚ := 5 / 2
  let kellyFraction := (winProbability * winLossRatio - lossProbability) / winLossRatio
  let conservativeKelly := max 0 (kellyFraction * (1 / 4))
  request.accountBalance * conservativeKelly / request.price

/-- `PositionSizer.calculateVolatilityAdjusted`: yields 0 when volatility is
absent (or falsy), otherwise the fixed-percentage size scaled by
`max(0.1, 1 − volatility/100)`. -/
def PositionSizer.calculateVolatilityAdjusted (cfg : TradingConfig)
    (request : PositionSizeRequest) : ℚ :=
  if !numTruthy request.volatility then 0
  else
    let volatilityMultiplier := max (1 / 10) (1 - request.volatility.getD 0 / 100)
    PositionSizer.calculateFixedPercentage cfg request * volatilityMultiplier

/-- `PositionSizer.calculateConfidenceBased`: the fixed-percentage size scaled by
`Math.pow(confidence, 1.5)`.  `Math.pow` is a transcendental library call, so it
is modelled as an explicit oracle parameter `pow15` of the sizer. -/
def PositionSizer.calculateConfidenceBased (cfg : TradingConfig)
    (pow15 : ℚ → ℚ) (request : PositionSizeRequest) : ℚ :=
  PositionSizer.calculateFixedPercentage cfg request * pow15 request.confidence

/-- `PositionSizer.combineStrategies`: the base weights
{fixed 0.3, kelly 0.25, volatility 0.25, confidence 0.2}, shifted by ±0.1
according to confidence, applied to the four candidate sizes. -/
def PositionSizer.combineStrategies
    (fixedPercentage kellyCriterion volatilityAdjusted confidenceBased : ℚ)
    (confidence : ℚ) : ℚ × SizingStrategy :=
  let wFixed : ℚ := 3 / 10
  let wKelly : ℚ := 25 / 100
  let wVol : ℚ := 25 / 100
  let wConf : ℚ := 2 / 10
  let w :=
    if confidence > 8 / 10 then
      (wFixed - 1 / 10, wKelly + 1 / 10, wVol - 1 / 10, wConf + 1 / 10)
    else if confidence < 5 / 10 then
      (wFixed + 1 / 10, wKelly - 1 / 10, wVol + 1 / 10, wConf - 1 / 10)
    else
      (wFixed, wKelly, wVol, wConf)
  (fixedPercentage * w.1 + kellyCriterion * w.2.1 + volatilityAdjusted * w.2.2.1 +
    confidenceBased * w.2.2.2, SizingStrategy.COMBINED_STRATEGY)

/-- `PositionSizer.applyRiskConstraints`: the max-risk-per-trade cap, the
minimum-quantity zero-out, the 5%-of-balance notional cap, and the final
`Math.max(0, ·)`. -/
def PositionSizer.applyRiskConstraints (rcfg : RiskManagementConfig)
    (size : ℚ × SizingStrategy) (request : PositionSizeRequest) :
    ℚ × SizingStrategy :=
  let q0 := size.1
  -- Maximum risk per trade constraint
  let maxRiskAmount := jsNumOr request.maxRiskPerTrade
    (request.accountBalance * rcfg.stopLossPercent / 100)
  let maxQuantityByRisk := maxRiskAmount / (request.price * rcfg.stopLossPercent / 100)
  let q1 := if q0 * request.price > maxRiskAmount then maxQuantityByRisk else q0
  -- Minimum position size
  let minQuantity : ℚ := 1 / 1000
  let q2 := if q1 < minQuantity then 0 else q1
  -- Maximum position size (5% of account)
  let maxPositionSize := request.accountBalance * (5 / 100)
  let maxQuantityBySize := maxPositionSize / request.price
  let q3 := if q2 * request.price > maxPositionSize then maxQuantityBySize else q2
  (max 0 q3, size.2)

/-- `PositionSizer.createZeroPosition`. -/
def PositionSizer.createZeroPosition (request : PositionSizeRequest)
    (warnings : List PWarning) : PositionSizeResult :=
  { quantity := 0
    notionalValue := 0
    riskAmount := 0
    riskPercentage := 0
    leverage := 0
    strategy := SizingStrategy.ZERO_POSITION
    confidence := request.confidence
    warnings := warnings }

/-- `PositionSizer.calculatePositionSize`: throws on non-positive price or
balance, short-circuits to a zero position at the open-positions limit,
otherwise blends the four candidate sizes and applies the risk constraints. -/
def PositionSizer.calculatePositionSize (cfg : TradingConfig)
    (rcfg : RiskManagementConfig) (pow15 : ℚ → ℚ)
    (request : PositionSizeRequest) : Except SizerError PositionSizeResult :=
  if request.price ≤ 0 then .error .invalidPrice
  else if request.accountBalance ≤ 0 then .error .invalidAccountBalance
  else if request.currentPositions ≥ cfg.maxOpenPositions then
    .ok (PositionSizer.createZeroPosition request
      [.maxOpenPositionsReached cfg.maxOpenPositions])
  else
    let finalSize := PositionSizer.combineStrategies
      (PositionSizer.calculateFixedPercentage cfg request)
      (PositionSizer.calculateKellyCriterion request)
      (PositionSizer.calculateVolatilityAdjusted cfg request)
      (PositionSizer.calculateConfidenceBased cfg pow15 request)
      request.confidence
    let constrainedSize := PositionSizer.applyRiskConstraints rcfg finalSize request
    let notionalValue := constrainedSize.1 * request.price
    let riskAmount := notionalValue * (rcfg.stopLossPercent / 100)
    let riskPercentage := riskAmount / request.accountBalance * 100
    let leverage := notionalValue / (notionalValue / cfg.leverageMultiplier)
    .ok
      { quantity := constrainedSize.1
        notionalValue := notionalValue
        riskAmount := riskAmount
        riskPercentage := riskPercentage
        leverage := leverage
        strategy := constrainedSize.2
        confidence := request.confidence
        warnings := [] }

/-- A webhook payload that has passed type-level decoding.  `timestampMs` is the
parsed millisecond value of the ISO-8601 `timestamp` string. -/
structure WebhookPayload where
  timestampMs : ℤ
  symbol : String
  «action» : SignalAction
  signal_strength : SignalStrength
  price : ℚ
  mfi_value : ℚ
  rsi_value : ℚ
  timeframe : String
  strategy : String
  secret : String
deriving DecidableEq

/-- The timeframe values accepted by the Joi schema. -/
def validTimeframes : List String :=
  ["1m", "3m", "5m", "15m", "30m", "1h", "2h", "4h", "6h", "8h", "12h", "1d",
   "3d", "1w", "1M"]

/-- The Joi schema constraints of `webhookPayloadSchema` on an already-typed
payload (field presence and enum membership are enforced by the type). -/
def webhookPayloadSchemaValid (p : WebhookPayload) : Bool :=
  decide (3 ≤ p.symbol.length) && decide (p.symbol.length ≤ 20) &&
  decide (0 < p.price) &&
  decide (0 ≤ p.mfi_value) && decide (p.mfi_value ≤ 100) &&
  decide (0 ≤ p.rsi_value) && decide (p.rsi_value ≤ 100) &&
  (validTimeframes.contains p.timeframe) &&
  decide (1 ≤ p.strategy.length) && decide (p.strategy.length ≤ 50) &&
  decide (1 ≤ p.secret.length)

/-- JavaScript `String.prototype.includes`. -/
def strIncludes (s sub : String) : Bool :=
  (s.splitOn sub).length != 1

/-- `signalLogicRules.mfiRsiCorrelation`. -/
def signalLogicRules.mfiRsiCorrelation (mfi rsi : ℚ) (a : SignalAction) : Bool :=
  match a with
  | .BUY => decide (mfi < 50) && decide (rsi < 50)
  | .SELL => decide (mfi > 50) && decide (rsi > 50)
  | .CLOSE => true

/-- `signalLogicRules.signalStrengthLogic`. -/
def signalLogicRules.signalStrengthLogic (mfi rsi : ℚ) (strength : SignalStrength) :
    Bool :=
  let extremeOversold := decide (mfi < 20) && decide (rsi < 30)
  let extremeOverbought := decide (mfi > 80) && decide (rsi > 70)
  let moderateOversold := decide (mfi < 40) && decide (rsi < 40)
  let moderateOverbought := decide (mfi > 60) && decide (rsi > 60)
  match strength with
  | .STRONG => extremeOversold || extremeOverbought
  | .MEDIUM => moderateOversold || moderateOverbought
  | .WEAK => !extremeOversold && !extremeOverbought && !moderateOversold &&
      !moderateOverbought

/-- `signalLogicRules.priceValidation`. -/
def signalLogicRules.priceValidation (price : ℚ) (symbol : String) : Bool :=
  if strIncludes symbol "BTC" then
    decide (price > 1000) && decide (price < 200000)
  else if strIncludes symbol "ETH" then
    decide (price > 10) && decide (price < 10000)
  else
    decide (price > 1 / 1000000) && decide (price < 100000)

/-- `signalLogicRules.timestampValidation`: within [now − 5 min, now + 1 min]. -/
def signalLogicRules.timestampValidation (timestampMs now : ℤ) : Bool :=
  decide (now - 5 * 60 * 1000 ≤ timestampMs) && decide (timestampMs ≤ now + 60 * 1000)

/-- The validator's errors and warnings, one constructor per message. -/
inductive VError
  | schemaViolation
deriving DecidableEq

/-- Warnings pushed by `validateWebhookPayload`. -/
inductive VWarning
  | ruleCheckFailedMfiRsiCorrelation
  | ruleCheckFailedSignalStrengthLogic
  | ruleCheckFailedPriceValidation
  | ruleCheckFailedTimestampValidation
  | extremeMfiValueDetected
  | extremeRsiValueDetected
  | buySignalInOverboughtConditions
  | sellSignalInOversoldConditions
deriving DecidableEq

/-- The `SignalValidationResult` interface. -/
structure SignalValidationResult where
  isValid : Bool
  errors : List VError
  warnings : List VWarning
  confidence : ℚ
deriving DecidableEq

/-- `validateWebhookPayload`: schema failure short-circuits with confidence 0;
otherwise the four soft rules subtract their fixed penalties, the two
conflicting-signal checks subtract 0.1 each, and confidence is clamped to
[0, 1]. -/
def validateWebhookPayload (p : WebhookPayload) (now : ℤ) :
    SignalValidationResult :=
  if !webhookPayloadSchemaValid p then
    { isValid := false, errors := [.schemaViolation], warnings := [], confidence := 0 }
  else
    let v1 := signalLogicRules.mfiRsiCorrelation p.mfi_value p.rsi_value p.action
    let v2 := signalLogicRules.signalStrengthLogic p.mfi_value p.rsi_value
      p.signal_strength
    let v3 := signalLogicRules.priceValidation p.price p.symbol
    let v4 := signalLogicRules.timestampValidation p.timestampMs now
    let warningsA : List VWarning :=
      (if !v1 then [.ruleCheckFailedMfiRsiCorrelation] else []) ++
      (if !v2 then [.ruleCheckFailedSignalStrengthLogic] else []) ++
      (if !v3 then [.ruleCheckFailedPriceValidation] else []) ++
      (if !v4 then [.ruleCheckFailedTimestampValidation] else [])
    let confidenceA : ℚ := 1 - (if !v1 then 2 / 10 else 0) -
      (if !v2 then 15 / 100 else 0) - (if !v3 then 1 / 10 else 0) -
      (if !v4 then 5 / 100 else 0)
    -- Additional warnings for edge cases
    let warningsB := warningsA ++
      (if decide (p.mfi_value > 95) || decide (p.mfi_value < 5) then
        [VWarning.extremeMfiValueDetected] else []) ++
      (if decide (p.rsi_value > 95) || decide (p.rsi_value < 5) then
        [VWarning.extremeRsiValueDetected] else [])
    -- Check for conflicting signals
    let overboughtBuy := p.action = SignalAction.BUY ∧
      (p.mfi_value > 70 ∨ p.rsi_value > 70)
    let warningsC := if overboughtBuy then
      warningsB ++ [VWarning.buySignalInOverboughtConditions] else warningsB
    let confidenceC := if overboughtBuy then confidenceA - 1 / 10 else confidenceA
    let oversoldSell := p.action = SignalAction.SELL ∧
      (p.mfi_value < 30 ∨ p.rsi_value < 30)
    let warningsD := if oversoldSell then
      warningsC ++ [VWarning.sellSignalInOversoldConditions] else warningsC
    let confidenceD := if oversoldSell then confidenceC - 1 / 10 else confidenceC
    -- Ensure confidence is within bounds
    { isValid := true
      errors := []
      warnings := warningsD
      confidence := max 0 (min 1 confidenceD) }

/-- Order side `'BUY' | 'SELL'`. -/
inductive OrderSide
  | BUY
  | SELL
deriving DecidableEq

/-- Position side `'LONG' | 'SHORT'`. -/
inductive PositionSide
  | LONG
  | SHORT
deriving DecidableEq

/-- Order kinds used by the engine (`MARKET` for entry/close, `STOP_MARKET` for
the stop-loss bracket, `LIMIT` for the take-profit bracket). -/
inductive OrderKind
  | MARKET
  | STOP_MARKET
  | LIMIT
deriving DecidableEq

/-- Time-in-force values used by the engine. -/
inductive TimeInForce
  | GTC
  | IOC
deriving DecidableEq

/-- The fields of a `BingXOrderRequest` the engine fills in.  Client order ids
(concatenations of clock readings and random suffixes) are not modelled. -/
structure BingXOrderRequest where
  symbol : String
  side : OrderSide
  kind : OrderKind
  quantity : ℚ
  positionSide : PositionSide
  price : Option ℚ
  stopPrice : Option ℚ
  reduceOnly : Bool
  timeInForce : TimeInForce
deriving DecidableEq

/-- The outcome of one `client.placeOrder` call: a response carrying the
exchange order id, or a thrown error with a message. -/
inductive PlaceOutcome
  | ok (orderId : ℕ)
  | exn (msg : String)
deriving DecidableEq

/-- Whether a `placeOrder` call threw. -/
def PlaceOutcome.isExn : PlaceOutcome → Bool
  | .ok _ => false
  | .exn _ => true

/-- The exchange collaborator, as an oracle giving the outcome of the k-th
`placeOrder` call made during one `executeTrade` invocation. -/
def ExchangeOracle : Type := ℕ → PlaceOutcome

/-- The call position and log of `placeOrder` calls made so far. -/
structure CallState where
  idx : ℕ
  log : List BingXOrderRequest
deriving DecidableEq

/-- One `client.placeOrder` call against the oracle: records the request in the
log and consumes the next outcome. -/
def callPlaceOrder (oracle : ExchangeOracle) (cs : CallState)
    (req : BingXOrderRequest) : PlaceOutcome × CallState :=
  (oracle cs.idx, { idx := cs.idx + 1, log := cs.log ++ [req] })

/-- Errors reported in a `TradeExecutionResult.error`, one constructor per
message shape. -/
inductive ExecError
  | riskCheckFailed (warnings : List RWarning)
  | invalidPositionSize
  | orderPlacementFailedAfterAttempts (attempts : ℕ) (lastError : String)
  | thrown (msg : String)
deriving DecidableEq

/-- Warnings in a `TradeExecutionResult`: upstream risk / sizer warnings carried
over, or a failed bracket order. -/
inductive ExecWarning
  | risk (w : RWarning)
  | sizer (w : PWarning)
  | failedToPlaceStopLossOrder
  | failedToPlaceTakeProfitOrder
deriving DecidableEq

/-- The `TradeExecutionResult` interface. -/
structure TradeExecutionResult where
  success : Bool
  orderId : Option ℕ
  executedPrice : Option ℚ
  executedQuantity : Option ℚ
  fees : Option ℚ
  error : Option ExecError
  warnings : List ExecWarning
  timestamp : ℤ
deriving DecidableEq

/-- The `TradeExecutionRequest` interface (`signal` restricted to the fields the
engine reads, `accountInfo` unused by `executeTrade` itself). -/
structure TradeExecutionRequest where
  signal : ProcessedSignal
  positionSize : PositionSizeResult
  riskCheck : RiskCheckResult
  currentPrice : ℚ
  accountInfo : BingXAccountInfo
deriving DecidableEq

/-- The engine's fixed retry bound (`maxRetries = 3`). -/
def TradeExecutionEngine.maxRetries : ℕ := 3

/-- The attempt loop of `placeOrderWithRetry`: try, and on a thrown error retry
until the attempts are exhausted, then report the last error. -/
def TradeExecutionEngine.retryLoop (oracle : ExchangeOracle)
    (req : BingXOrderRequest) (now : ℤ) :
    ℕ → String → CallState → TradeExecutionResult × CallState
  | 0, lastError, cs =>
      ({ success := false, orderId := none, executedPrice := none,
         executedQuantity := none, fees := none,
         error := some (.orderPlacementFailedAfterAttempts
           TradeExecutionEngine.maxRetries lastError),
         warnings := [], timestamp := now }, cs)
  | n + 1, _lastError, cs =>
      match callPlaceOrder oracle cs req with
      | (.ok orderId, cs') =>
          ({ success := true, orderId := some orderId, executedPrice := none,
             executedQuantity := none, fees := none, error := none,
             warnings := [], timestamp := now }, cs')
      | (.exn msg, cs') => TradeExecutionEngine.retryLoop oracle req now n msg cs'

/-- `TradeExecutionEngine.placeOrderWithRetry`. -/
def TradeExecutionEngine.placeOrderWithRetry (oracle : ExchangeOracle)
    (req : BingXOrderRequest) (now : ℤ) (cs : CallState) :
    TradeExecutionResult × CallState :=
  TradeExecutionEngine.retryLoop oracle req now TradeExecutionEngine.maxRetries "" cs

/-- `TradeExecutionEngine.placeStopLossOrder`: one reduce-only stop-market
order; a thrown error is caught and reported as a failure result carrying the
stop-loss warning. -/
def TradeExecutionEngine.placeStopLossOrder (oracle : ExchangeOracle)
    (symbol : String) (quantity stopPrice : ℚ) (positionSide : PositionSide)
    (now : ℤ) (cs : CallState) : TradeExecutionResult × CallState :=
  let req : BingXOrderRequest :=
    { symbol := symbol
      side := if positionSide = PositionSide.LONG then OrderSide.SELL else OrderSide.BUY
      kind := OrderKind.STOP_MARKET
      quantity := quantity
      positionSide := positionSide
      price := none
      stopPrice := some stopPrice
      reduceOnly := true
      timeInForce := TimeInForce.GTC }
  match callPlaceOrder oracle cs req with
  | (.ok orderId, cs') =>
      ({ success := true, orderId := some orderId, executedPrice := none,
         executedQuantity := none, fees := none, error := none, warnings := [],
         timestamp := now }, cs')
  | (.exn msg, cs') =>
      ({ success := false, orderId := none, executedPrice := none,
         executedQuantity := none, fees := none, error := some (.thrown msg),
         warnings := [.failedToPlaceStopLossOrder], timestamp := now }, cs')

/-- `TradeExecutionEngine.placeTakeProfitOrder`: one reduce-only limit order; a
thrown error is caught and reported as a failure result carrying the
take-profit warning. -/
def TradeExecutionEngine.placeTakeProfitOrder (oracle : ExchangeOracle)
    (symbol : String) (quantity takeProfitPrice : ℚ) (positionSide : PositionSide)
    (now : ℤ) (cs : CallState) : TradeExecutionResult × CallState :=
  let req : BingXOrderRequest :=
    { symbol := symbol
      side := if positionSide = PositionSide.LONG then OrderSide.SELL else OrderSide.BUY
      kind := OrderKind.LIMIT
      quantity := quantity
      positionSide := positionSide
      price := some takeProfitPrice
      stopPrice := none
      reduceOnly := true
      timeInForce := TimeInForce.GTC }
  match callPlaceOrder oracle cs req with
  | (.ok orderId, cs') =>
      ({ success := true, orderId := some orderId, executedPrice := none,
         executedQuantity := none, fees := none, error := none, warnings := [],
         timestamp := now }, cs')
  | (.exn msg, cs') =>
      ({ success := false, orderId := none, executedPrice := none,
         executedQuantity := none, fees := none, error := some (.thrown msg),
         warnings := [.failedToPlaceTakeProfitOrder], timestamp := now }, cs')

/-- The market entry order `executeTrade` builds from the request: side and
position side derived from the signal action, sized per the position result. -/
def TradeExecutionEngine.entryOrderRequest (request : TradeExecutionRequest) :
    BingXOrderRequest :=
  { symbol := request.signal.symbol
    side := if request.signal.action = SignalAction.BUY then OrderSide.BUY
      else OrderSide.SELL
    kind := OrderKind.MARKET
    quantity := request.positionSize.quantity
    positionSide := if request.signal.action = SignalAction.BUY then
      PositionSide.LONG else PositionSide.SHORT
    price := none
    stopPrice := none
    reduceOnly := false
    timeInForce := TimeInForce.IOC }

/-- `TradeExecutionEngine.executeTrade`: fail fast (no exchange call) when the
risk check blocked trading or the sized quantity is non-positive; otherwise
place the market entry with retry, then the stop-loss and take-profit brackets,
whose failures only append warnings to an otherwise-successful result.  Returns
the result together with the log of `placeOrder` calls made. -/
def TradeExecutionEngine.executeTrade (oracle : ExchangeOracle)
    (request : TradeExecutionRequest) (now : ℤ) :
    TradeExecutionResult × List BingXOrderRequest :=
  -- Validate execution conditions
  if !request.riskCheck.shouldTrade then
    ({ success := false, orderId := none, executedPrice := none,
       executedQuantity := none, fees := none,
       error := some (.riskCheckFailed request.riskCheck.warnings),
       warnings := request.riskCheck.warnings.map ExecWarning.risk,
       timestamp := now }, [])
  else if request.positionSize.quantity ≤ 0 then
    ({ success := false, orderId := none, executedPrice := none,
       executedQuantity := none, fees := none, error := some .invalidPositionSize,
       warnings := request.positionSize.warnings.map ExecWarning.sizer,
       timestamp := now }, [])
  else
    -- Create and execute the market entry order
    let entry := TradeExecutionEngine.placeOrderWithRetry oracle
      (TradeExecutionEngine.entryOrderRequest request) now ⟨0, []⟩
    if !entry.1.success then
      ({ success := false, orderId := none, executedPrice := none,
         executedQuantity := none, fees := none, error := entry.1.error,
         warnings := [] ++ entry.1.warnings, timestamp := now }, entry.2.log)
    else
      -- Place stop loss and take profit orders
      let positionSide := if request.signal.action = SignalAction.BUY then
        PositionSide.LONG else PositionSide.SHORT
      let sl := TradeExecutionEngine.placeStopLossOrder oracle
        request.signal.symbol request.positionSize.quantity
        request.riskCheck.stopLossPrice positionSide now entry.2
      let tp := TradeExecutionEngine.placeTakeProfitOrder oracle
        request.signal.symbol request.positionSize.quantity
        request.riskCheck.takeProfitPrice positionSide now sl.2
      ({ success := true, orderId := entry.1.orderId, executedPrice :=
          some request.currentPrice,
         executedQuantity := some request.positionSize.quantity, fees := some 0,
         error := none,
         warnings := ([] ++ sl.1.warnings) ++ tp.1.warnings, timestamp := now },
        tp.2.log)

/-- Membership in a conditionally-extended warning list. -/
theorem mem_ite_push {α : Type} {c : Prop} [Decidable c] (x a : α) (l : List α) :
    x ∈ (if c then l ++ [a] else l) ↔ x ∈ l ∨ (c ∧ x = a) := by
  split_ifs with h <;> simp [h]

/-- C1: the claim "riskLevel is the worst of the levels of all fired checks"
fails on the code: with the daily-loss check fired (CRITICAL) and the
symbol-concentration check fired (HIGH), `checkTradeRisk` returns HIGH, while
the worst fired level is CRITICAL. -/
theorem C1_worstWins_counterexample :
    (RiskManager.checkTradeRisk ⟨2, 2, 4, false, 2⟩ ⟨-100, 0, 0⟩
        ⟨"BTC-USDT", .BUY⟩ 100 1000 [⟨"BTC-USDT", 1, 1⟩] none).1.riskLevel =
      RiskLevel.HIGH ∧
    worstLevel (riskFiredLevels ⟨2, 2, 4, false, 2⟩ ⟨-100, 0, 0⟩
        ⟨"BTC-USDT", .BUY⟩ 1000 [⟨"BTC-USDT", 1, 1⟩] none) =
      RiskLevel.CRITICAL := by
  constructor
  · norm_num [RiskManager.checkTradeRisk, RiskManager.calculateDrawdown, numTruthy]
  · norm_num [worstLevel, riskFiredLevels, RiskManager.calculateDrawdown, numTruthy,
      RiskLevel.worst, RiskLevel.toNat, List.foldl]

/-- C1 (amended): in both `checkTradeRisk` and `checkSafety` (on its
non-early-return path) the returned riskLevel is the level assigned by the
last check that fired — each firing check overwrites the level, so a later,
milder check lowers a level already raised by an earlier check. -/
theorem C1_riskLevel_last_assignment :
    (∀ (cfg : RiskManagementConfig) (st : RiskManagerState)
        (signal : ProcessedSignal) (currentPrice accountBalance : ℚ)
        (openPositions : List BingXPosition) (volatility : Option ℚ),
      (RiskManager.checkTradeRisk cfg st signal currentPrice accountBalance
          openPositions volatility).1.riskLevel =
        riskLastFired cfg st signal accountBalance openPositions volatility) ∧
    (∀ (th : SafetyThresholds) (st : SafetyManagerState)
        (accountInfo : BingXAccountInfo) (openPositions : List BingXPosition)
        (riskMetrics : RiskMetrics) (recentTrades : List TradeRecord) (now : ℤ),
      st.emergencyStop = false →
      (st.circuitBreaker.isActive = true →
        st.circuitBreaker.cooldownPeriod ≤ now - st.circuitBreaker.triggerTime) →
      (SafetyManager.checkSafety th st accountInfo openPositions riskMetrics
          recentTrades now).1.riskLevel =
        safetyLastFired th st accountInfo openPositions riskMetrics) := by
  constructor
  · intro cfg st signal currentPrice accountBalance openPositions volatility
    rfl
  · intro th st accountInfo openPositions riskMetrics recentTrades now hES hCB
    unfold SafetyManager.checkSafety
    rw [if_neg (by simp [hES])]
    by_cases hA : st.circuitBreaker.isActive = true
    · have hlt : ¬ (now - st.circuitBreaker.triggerTime <
          st.circuitBreaker.cooldownPeriod) := not_lt.mpr (hCB hA)
      rw [if_neg (by simp [hlt])]
      split_ifs <;> rfl
    · rw [if_neg (by simp [hA])]
      split_ifs <;> rfl

/-- C1 witness: the amended statement applied to a concrete `checkSafety` call. -/
theorem C1_riskLevel_last_assignment_witness :
    (SafetyManager.checkSafety ⟨50, 100, 5, 1000000, 100, 0, 10, 100, 10⟩
        ⟨⟨false, 0, .emptyReason, 1800000, true⟩, false, 0, 0, ⟨0, 1, 0, 2024⟩, []⟩
        ⟨100⟩ [] ⟨0, 0, 0, 0, 0, 0, 0⟩ [] 0).1.riskLevel =
      safetyLastFired ⟨50, 100, 5, 1000000, 100, 0, 10, 100, 10⟩
        ⟨⟨false, 0, .emptyReason, 1800000, true⟩, false, 0, 0, ⟨0, 1, 0, 2024⟩, []⟩
        ⟨100⟩ [] ⟨0, 0, 0, 0, 0, 0, 0⟩ :=
  C1_riskLevel_last_assignment.2 _ _ _ _ _ _ 0 rfl (by decide)

/-- C5: while the emergency stop latch is set, every `checkSafety` call returns
the fixed disabled status (trading off, emergency flag on, CRITICAL) without
touching the state, and no operation other than `deactivateEmergencyStop`
clears the latch. -/
theorem C5_emergencyStop_latch :
    (∀ (th : SafetyThresholds) (st : SafetyManagerState)
        (accountInfo : BingXAccountInfo) (openPositions : List BingXPosition)
        (riskMetrics : RiskMetrics) (recentTrades : List TradeRecord) (now : ℤ),
      st.emergencyStop = true →
      (SafetyManager.checkSafety th st accountInfo openPositions riskMetrics
          recentTrades now) =
        (⟨false, false, true, [.emergencyStopIsActive], now, RiskLevel.CRITICAL⟩, st)) ∧
    (∀ (th : SafetyThresholds) (st : SafetyManagerState) (op : SafetyOp),
      st.emergencyStop = true → op ≠ SafetyOp.deactivateEmergencyStopOp →
      (applySafetyOp th st op).emergencyStop = true) := by
  constructor
  · intro th st accountInfo openPositions riskMetrics recentTrades now h
    unfold SafetyManager.checkSafety
    rw [if_pos (by simp [h])]
  · intro th st op h hne
    cases op with
    | checkSafetyOp accountInfo openPositions riskMetrics recentTrades now =>
        simp only [applySafetyOp]
        unfold SafetyManager.checkSafety
        rw [if_pos (by simp [h])]
        exact h
    | triggerCircuitBreakerOp now reason => exact h
    | resetCircuitBreakerOp => exact h
    | activateEmergencyStopOp => rfl
    | deactivateEmergencyStopOp => exact absurd rfl hne
    | updateDailyLossOp pnl now =>
        simp only [applySafetyOp, SafetyManager.updateDailyLoss]
        split_ifs <;> exact h
    | startTradingSessionOp now => exact h
    | endTradingSessionOp pnl trades now =>
        simp only [applySafetyOp, SafetyManager.endTradingSession]
        cases st.tradingSessions.getLast? <;> exact h

/-- C5 witness: the latch theorem applied to a concrete latched state and a
concrete non-deactivating operation. -/
theorem C5_emergencyStop_latch_witness :
    (SafetyManager.checkSafety ⟨50, 100, 5, 1000000, 100, 0, 10, 100, 10⟩
        ⟨⟨false, 0, .emptyReason, 1800000, true⟩, true, 0, 0, ⟨0, 1, 0, 2024⟩, []⟩
        ⟨100⟩ [] ⟨0, 0, 0, 0, 0, 0, 0⟩ [] 7) =
      (⟨false, false, true, [.emergencyStopIsActive], 7, RiskLevel.CRITICAL⟩,
        ⟨⟨false, 0, .emptyReason, 1800000, true⟩, true, 0, 0, ⟨0, 1, 0, 2024⟩, []⟩) ∧
    (applySafetyOp ⟨50, 100, 5, 1000000, 100, 0, 10, 100, 10⟩
        ⟨⟨false, 0, .emptyReason, 1800000, true⟩, true, 0, 0, ⟨0, 1, 0, 2024⟩, []⟩
        SafetyOp.resetCircuitBreakerOp).emergencyStop = true :=
  ⟨C5_emergencyStop_latch.1 _ _ _ _ _ _ 7 rfl,
    C5_emergencyStop_latch.2 _ _ SafetyOp.resetCircuitBreakerOp rfl
      (by intro hcontra; exact SafetyOp.noConfusion hcontra)⟩

/-- When the volatility branch is off, `calculateStopLevels` yields the fixed
percentage formulas, mirrored by side. -/
theorem calculateStopLevels_fixed (cfg : RiskManagementConfig)
    (signal : ProcessedSignal) (currentPrice : ℚ) (volatility : Option ℚ)
    (hc : (numTruthy volatility && cfg.useVolatilityStops) = false) :
    RiskManager.calculateStopLevels cfg signal currentPrice volatility =
      if signal.action = SignalAction.BUY then
        (currentPrice * (1 - cfg.stopLossPercent / 100),
         currentPrice * (1 + cfg.takeProfitPercent / 100))
      else
        (currentPrice * (1 + cfg.stopLossPercent / 100),
         currentPrice * (1 - cfg.takeProfitPercent / 100)) := by
  unfold RiskManager.calculateStopLevels
  rw [hc]
  simp only [Bool.false_eq_true, if_false]
  split_ifs <;> simp only [Prod.mk.injEq] <;> constructor <;> ring

/-- C7: with volatility stops not in effect (disabled, or no volatility
supplied), `checkTradeRisk` returns the fixed-percentage stop-loss and
take-profit prices: for BUY `P(1 − S/100)` and `P(1 + T/100)`, for SELL
mirrored. -/
theorem C7_fixed_stop_levels (cfg : RiskManagementConfig)
    (st : RiskManagerState) (signal : ProcessedSignal)
    (currentPrice accountBalance : ℚ) (openPositions : List BingXPosition)
    (volatility : Option ℚ)
    (h : cfg.useVolatilityStops = false ∨ volatility = none) :
    (signal.action = SignalAction.BUY →
      (RiskManager.checkTradeRisk cfg st signal currentPrice accountBalance
          openPositions volatility).1.stopLossPrice =
        currentPrice * (1 - cfg.stopLossPercent / 100) ∧
      (RiskManager.checkTradeRisk cfg st signal currentPrice accountBalance
          openPositions volatility).1.takeProfitPrice =
        currentPrice * (1 + cfg.takeProfitPercent / 100)) ∧
    (signal.action = SignalAction.SELL →
      (RiskManager.checkTradeRisk cfg st signal currentPrice accountBalance
          openPositions volatility).1.stopLossPrice =
        currentPrice * (1 + cfg.stopLossPercent / 100) ∧
      (RiskManager.checkTradeRisk cfg st signal currentPrice accountBalance
          openPositions volatility).1.takeProfitPrice =
        currentPrice * (1 - cfg.takeProfitPercent / 100)) := by
  have hc : (numTruthy volatility && cfg.useVolatilityStops) = false := by
    rcases h with h | h
    · simp [h]
    · simp [h, numTruthy]
  have key := calculateStopLevels_fixed cfg signal currentPrice volatility hc
  have hsl : (RiskManager.checkTradeRisk cfg st signal currentPrice
      accountBalance openPositions volatility).1.stopLossPrice =
      (RiskManager.calculateStopLevels cfg signal currentPrice volatility).1 := rfl
  have htp : (RiskManager.checkTradeRisk cfg st signal currentPrice
      accountBalance openPositions volatility).1.takeProfitPrice =
      (RiskManager.calculateStopLevels cfg signal currentPrice volatility).2 := rfl
  constructor
  · intro ha
    rw [hsl, htp, key, if_pos ha]
    exact ⟨rfl, rfl⟩
  · intro ha
    have hne : ¬ signal.action = SignalAction.BUY := by
      rw [ha]; intro hcontra; exact SignalAction.noConfusion hcontra
    rw [hsl, htp, key, if_neg hne]
    exact ⟨rfl, rfl⟩

/-- C7 witness: a concrete BUY check with volatility stops disabled yields the
fixed stop at 98 and target at 104 from price 100 with S = 2, T = 4. -/
theorem C7_fixed_stop_levels_witness :
    ((⟨"BTCUSDT", SignalAction.BUY⟩ : ProcessedSignal).action = SignalAction.BUY →
      (RiskManager.checkTradeRisk ⟨2, 2, 4, false, 2⟩ ⟨0, 0, 0⟩
          ⟨"BTCUSDT", SignalAction.BUY⟩ 100 1000 [] none).1.stopLossPrice =
        100 * (1 - (2 : ℚ) / 100) ∧
      (RiskManager.checkTradeRisk ⟨2, 2, 4, false, 2⟩ ⟨0, 0, 0⟩
          ⟨"BTCUSDT", SignalAction.BUY⟩ 100 1000 [] none).1.takeProfitPrice =
        100 * (1 + (4 : ℚ) / 100)) ∧
    ((⟨"BTCUSDT", SignalAction.BUY⟩ : ProcessedSignal).action = SignalAction.SELL →
      (RiskManager.checkTradeRisk ⟨2, 2, 4, false, 2⟩ ⟨0, 0, 0⟩
          ⟨"BTCUSDT", SignalAction.BUY⟩ 100 1000 [] none).1.stopLossPrice =
        100 * (1 + (2 : ℚ) / 100) ∧
      (RiskManager.checkTradeRisk ⟨2, 2, 4, false, 2⟩ ⟨0, 0, 0⟩
          ⟨"BTCUSDT", SignalAction.BUY⟩ 100 1000 [] none).1.takeProfitPrice =
        100 * (1 - (4 : ℚ) / 100)) :=
  C7_fixed_stop_levels ⟨2, 2, 4, false, 2⟩ ⟨0, 0, 0⟩ ⟨"BTCUSDT", SignalAction.BUY⟩
    100 1000 [] none (Or.inl rfl)

/-- C10: a volatility argument of exactly 0 behaves as an absent one in
`checkTradeRisk` — the whole call is equal to the call without volatility, the
result carries no trailing stop, and the fixed-percentage stop formulas are
used even with volatility stops enabled. -/
theorem C10_zero_volatility_as_absent (cfg : RiskManagementConfig)
    (st : RiskManagerState) (signal : ProcessedSignal)
    (currentPrice accountBalance : ℚ) (openPositions : List BingXPosition)
    (_h : cfg.useVolatilityStops = true) :
    RiskManager.checkTradeRisk cfg st signal currentPrice accountBalance
        openPositions (some 0) =
      RiskManager.checkTradeRisk cfg st signal currentPrice accountBalance
        openPositions none ∧
    (RiskManager.checkTradeRisk cfg st signal currentPrice accountBalance
        openPositions (some 0)).1.trailingStopPrice = none ∧
    (RiskManager.checkTradeRisk cfg st signal currentPrice accountBalance
        openPositions (some 0)).1.stopLossPrice =
      (if signal.action = SignalAction.BUY then
        currentPrice * (1 - cfg.stopLossPercent / 100)
       else currentPrice * (1 + cfg.stopLossPercent / 100)) ∧
    (RiskManager.checkTradeRisk cfg st signal currentPrice accountBalance
        openPositions (some 0)).1.takeProfitPrice =
      (if signal.action = SignalAction.BUY then
        currentPrice * (1 + cfg.takeProfitPercent / 100)
       else currentPrice * (1 - cfg.takeProfitPercent / 100)) := by
  have h0 : numTruthy (some (0 : ℚ)) = false := by simp [numTruthy]
  have hc : (numTruthy (some (0 : ℚ)) && cfg.useVolatilityStops) = false := by
    simp [h0]
  have key := calculateStopLevels_fixed cfg signal currentPrice (some 0) hc
  refine ⟨?_, ?_, ?_, ?_⟩
  · simp [RiskManager.checkTradeRisk, RiskManager.calculateStopLevels, numTruthy]
  · show (if cfg.useVolatilityStops && numTruthy (some (0 : ℚ)) then _ else none) = none
    simp [h0]
  · show (RiskManager.calculateStopLevels cfg signal currentPrice (some 0)).1 = _
    rw [key]
    split_ifs <;> rfl
  · show (RiskManager.calculateStopLevels cfg signal currentPrice (some 0)).2 = _
    rw [key]
    split_ifs <;> rfl

/-- C10 witness: the zero-volatility equivalence at a concrete call with
volatility stops enabled. -/
theorem C10_zero_volatility_as_absent_witness :
    RiskManager.checkTradeRisk ⟨2, 2, 4, true, 2⟩ ⟨0, 0, 0⟩
        ⟨"BTCUSDT", SignalAction.BUY⟩ 100 1000 [] (some 0) =
      RiskManager.checkTradeRisk ⟨2, 2, 4, true, 2⟩ ⟨0, 0, 0⟩
        ⟨"BTCUSDT", SignalAction.BUY⟩ 100 1000 [] none ∧
    (RiskManager.checkTradeRisk ⟨2, 2, 4, true, 2⟩ ⟨0, 0, 0⟩
        ⟨"BTCUSDT", SignalAction.BUY⟩ 100 1000 [] (some 0)).1.trailingStopPrice =
      none :=
  ⟨(C10_zero_volatility_as_absent ⟨2, 2, 4, true, 2⟩ ⟨0, 0, 0⟩
      ⟨"BTCUSDT", SignalAction.BUY⟩ 100 1000 [] rfl).1,
   (C10_zero_volatility_as_absent ⟨2, 2, 4, true, 2⟩ ⟨0, 0, 0⟩
      ⟨"BTCUSDT", SignalAction.BUY⟩ 100 1000 [] rfl).2.1⟩

/-- C6: with the risk check blocking, or a non-positive sized quantity,
`executeTrade` makes no exchange call (empty call log) and fails with the
upstream risk (respectively sizer) warnings. -/
theorem C6_executeTrade_failfast (oracle : ExchangeOracle)
    (request : TradeExecutionRequest) (now : ℤ) :
    (request.riskCheck.shouldTrade = false →
      TradeExecutionEngine.executeTrade oracle request now =
        ({ success := false, orderId := none, executedPrice := none,
           executedQuantity := none, fees := none,
           error := some (.riskCheckFailed request.riskCheck.warnings),
           warnings := request.riskCheck.warnings.map ExecWarning.risk,
           timestamp := now }, [])) ∧
    (request.riskCheck.shouldTrade = true → request.positionSize.quantity ≤ 0 →
      TradeExecutionEngine.executeTrade oracle request now =
        ({ success := false, orderId := none, executedPrice := none,
           executedQuantity := none, fees := none,
           error := some .invalidPositionSize,
           warnings := request.positionSize.warnings.map ExecWarning.sizer,
           timestamp := now }, [])) := by
  constructor
  · intro h
    unfold TradeExecutionEngine.executeTrade
    rw [if_pos (by simp [h])]
  · intro h1 h2
    unfold TradeExecutionEngine.executeTrade
    rw [if_neg (by simp [h1]), if_pos h2]

/-- C6 witness: a concrete blocked risk check produces a failure with the risk
warnings and an empty call log. -/
theorem C6_executeTrade_failfast_witness :
    TradeExecutionEngine.executeTrade (fun _ => PlaceOutcome.ok 1)
        ⟨⟨"BTCUSDT", SignalAction.BUY⟩,
          ⟨1, 100, 2, 1, 10, SizingStrategy.COMBINED_STRATEGY, 1, []⟩,
          ⟨false, RiskLevel.CRITICAL, [RWarning.dailyLossLimitReached], 0, 98, 104, none⟩,
          100, ⟨1000⟩⟩ 5 =
      ({ success := false, orderId := none, executedPrice := none,
         executedQuantity := none, fees := none,
         error := some (.riskCheckFailed [RWarning.dailyLossLimitReached]),
         warnings := [ExecWarning.risk RWarning.dailyLossLimitReached],
         timestamp := 5 }, []) :=
  (C6_executeTrade_failfast (fun _ => PlaceOutcome.ok 1)
      ⟨⟨"BTCUSDT", SignalAction.BUY⟩,
        ⟨1, 100, 2, 1, 10, SizingStrategy.COMBINED_STRATEGY, 1, []⟩,
        ⟨false, RiskLevel.CRITICAL, [RWarning.dailyLossLimitReached], 0, 98, 104, none⟩,
        100, ⟨1000⟩⟩ 5).1 rfl

/-- C8: once the market entry order succeeds, `executeTrade` returns success
with exactly one warning appended per thrown bracket order (stop-loss first,
then take-profit); bracket failures never turn into an overall failure. -/
theorem C8_bracket_failure_warnings (oracle : ExchangeOracle)
    (request : TradeExecutionRequest) (now : ℤ)
    (h1 : request.riskCheck.shouldTrade = true)
    (h2 : 0 < request.positionSize.quantity)
    (hentry : (TradeExecutionEngine.placeOrderWithRetry oracle
      (TradeExecutionEngine.entryOrderRequest request) now ⟨0, []⟩).1.success = true) :
    (TradeExecutionEngine.executeTrade oracle request now).1.success = true ∧
    (TradeExecutionEngine.executeTrade oracle request now).1.warnings =
      (if (oracle (TradeExecutionEngine.placeOrderWithRetry oracle
          (TradeExecutionEngine.entryOrderRequest request) now ⟨0, []⟩).2.idx).isExn then
        [ExecWarning.failedToPlaceStopLossOrder] else []) ++
      (if (oracle ((TradeExecutionEngine.placeOrderWithRetry oracle
          (TradeExecutionEngine.entryOrderRequest request) now ⟨0, []⟩).2.idx + 1)).isExn then
        [ExecWarning.failedToPlaceTakeProfitOrder] else []) := by
  have hq : ¬ request.positionSize.quantity ≤ 0 := not_le.mpr h2
  unfold TradeExecutionEngine.executeTrade
  rw [if_neg (by simp [h1]), if_neg hq]
  rcases hsl : oracle (TradeExecutionEngine.placeOrderWithRetry oracle
      (TradeExecutionEngine.entryOrderRequest request) now ⟨0, []⟩).2.idx with n | m <;>
    rcases htp : oracle ((TradeExecutionEngine.placeOrderWithRetry oracle
      (TradeExecutionEngine.entryOrderRequest request) now ⟨0, []⟩).2.idx + 1) with n2 | m2 <;>
    simp [TradeExecutionEngine.placeStopLossOrder,
      TradeExecutionEngine.placeTakeProfitOrder, callPlaceOrder, hsl, htp, hentry,
      PlaceOutcome.isExn]

/-- C8 witness: entry succeeds, both brackets throw; the result is a success
carrying the two bracket warnings. -/
theorem C8_bracket_failure_warnings_witness :
    (TradeExecutionEngine.executeTrade
        (fun k => if k = 0 then PlaceOutcome.ok 1 else PlaceOutcome.exn "boom")
        ⟨⟨"BTCUSDT", SignalAction.BUY⟩,
          ⟨1, 100, 2, 1, 10, SizingStrategy.COMBINED_STRATEGY, 1, []⟩,
          ⟨true, RiskLevel.LOW, [], 20, 98, 104, none⟩,
          100, ⟨1000⟩⟩ 5).1.success = true ∧
    (TradeExecutionEngine.executeTrade
        (fun k => if k = 0 then PlaceOutcome.ok 1 else PlaceOutcome.exn "boom")
        ⟨⟨"BTCUSDT", SignalAction.BUY⟩,
          ⟨1, 100, 2, 1, 10, SizingStrategy.COMBINED_STRATEGY, 1, []⟩,
          ⟨true, RiskLevel.LOW, [], 20, 98, 104, none⟩,
          100, ⟨1000⟩⟩ 5).1.warnings =
      [ExecWarning.failedToPlaceStopLossOrder,
       ExecWarning.failedToPlaceTakeProfitOrder] := by
  have key := C8_bracket_failure_warnings
    (fun k => if k = 0 then PlaceOutcome.ok 1 else PlaceOutcome.exn "boom")
    ⟨⟨"BTCUSDT", SignalAction.BUY⟩,
      ⟨1, 100, 2, 1, 10, SizingStrategy.COMBINED_STRATEGY, 1, []⟩,
      ⟨true, RiskLevel.LOW, [], 20, 98, 104, none⟩,
      100, ⟨1000⟩⟩ 5 rfl (by norm_num) (by decide)
  exact ⟨key.1, by rw [key.2]; decide⟩

/-- C9: a schema-valid BUY payload with mfi 80 and rsi 85 trips both the
MFI-RSI correlation rule (penalty 0.20) and the overbought-buy check
(penalty 0.10), so the returned confidence lies in [0, 0.70]. -/
theorem C9_overbought_buy_confidence (p : WebhookPayload) (now : ℤ)
    (hschema : webhookPayloadSchemaValid p = true)
    (ha : p.action = SignalAction.BUY)
    (hm : p.mfi_value = 80) (hr : p.rsi_value = 85) :
    VWarning.ruleCheckFailedMfiRsiCorrelation ∈
      (validateWebhookPayload p now).warnings ∧
    VWarning.buySignalInOverboughtConditions ∈
      (validateWebhookPayload p now).warnings ∧
    0 ≤ (validateWebhookPayload p now).confidence ∧
    (validateWebhookPayload p now).confidence ≤ 7 / 10 := by
  have hv1 : signalLogicRules.mfiRsiCorrelation p.mfi_value p.rsi_value p.action
      = false := by
    rw [ha, hm, hr]; norm_num [signalLogicRules.mfiRsiCorrelation]
  have hob : p.action = SignalAction.BUY ∧ (p.mfi_value > 70 ∨ p.rsi_value > 70) :=
    ⟨ha, Or.inl (by rw [hm]; norm_num)⟩
  have hos : ¬ (p.action = SignalAction.SELL ∧
      (p.mfi_value < 30 ∨ p.rsi_value < 30)) := by
    rintro ⟨hsell, -⟩
    rw [ha] at hsell
    exact SignalAction.noConfusion hsell
  unfold validateWebhookPayload
  rw [if_neg (by simp [hschema])]
  dsimp only
  rw [hv1]
  refine ⟨?_, ?_, ?_, ?_⟩
  · simp [hob, hos]
  · simp [hob, hos]
  · exact le_max_left 0 _
  · apply max_le (by norm_num)
    refine le_trans (min_le_right 1 _) ?_
    simp only [hob, hos, if_pos, if_neg, not_false_eq_true, Bool.not_false,
      if_true, and_self, eq_self_iff_true]
    split_ifs <;> norm_num

/-- C9 witness: the confidence bound at a concrete schema-valid BUY payload
with mfi 80 and rsi 85. -/
theorem C9_overbought_buy_confidence_witness :
    VWarning.ruleCheckFailedMfiRsiCorrelation ∈
      (validateWebhookPayload
        ⟨0, "BTCUSDT", SignalAction.BUY, SignalStrength.MEDIUM, 45000, 80, 85,
          "1h", "mfi", "s"⟩ 0).warnings ∧
    VWarning.buySignalInOverboughtConditions ∈
      (validateWebhookPayload
        ⟨0, "BTCUSDT", SignalAction.BUY, SignalStrength.MEDIUM, 45000, 80, 85,
          "1h", "mfi", "s"⟩ 0).warnings ∧
    0 ≤ (validateWebhookPayload
        ⟨0, "BTCUSDT", SignalAction.BUY, SignalStrength.MEDIUM, 45000, 80, 85,
          "1h", "mfi", "s"⟩ 0).confidence ∧
    (validateWebhookPayload
        ⟨0, "BTCUSDT", SignalAction.BUY, SignalStrength.MEDIUM, 45000, 80, 85,
          "1h", "mfi", "s"⟩ 0).confidence ≤ 7 / 10 :=
  C9_overbought_buy_confidence
    ⟨0, "BTCUSDT", SignalAction.BUY, SignalStrength.MEDIUM, 45000, 80, 85,
      "1h", "mfi", "s"⟩ 0
    (by norm_num [webhookPayloadSchemaValid, validTimeframes]; decide)
    rfl rfl rfl

/-- Membership in a conditional singleton warning list. -/
theorem mem_ite_single {α : Type} {c : Prop} [Decidable c] (x a : α) :
    x ∈ (if c then [a] else ([] : List α)) ↔ c ∧ x = a := by
  split_ifs with h <;> simp [h]

/-- C4: the claim "checkSafety warns/raises/triggers exactly when the
recentTrades passed to that same call end with a long-enough loss run" fails on
the code: with a fresh manager (stored counter 0), a limit of 1, and a
recentTrades list ending in 1 losing trade, the call produces no warning, LOW
risk and no circuit breaker — the counter from this call's trades only takes
effect on the next call. -/
theorem C4_consecutive_counterexample :
    (SafetyManager.checkSafety ⟨50, 100, 5, 1000000, 100, 0, 1, 100, 10⟩
        ⟨⟨false, 0, .emptyReason, 1800000, true⟩, false, 0, 0, ⟨0, 1, 0, 2024⟩, []⟩
        ⟨100⟩ [] ⟨0, 0, 0, 0, 0, 0, 0⟩ [⟨some (-5)⟩] 0).1.warnings = [] ∧
    (SafetyManager.checkSafety ⟨50, 100, 5, 1000000, 100, 0, 1, 100, 10⟩
        ⟨⟨false, 0, .emptyReason, 1800000, true⟩, false, 0, 0, ⟨0, 1, 0, 2024⟩, []⟩
        ⟨100⟩ [] ⟨0, 0, 0, 0, 0, 0, 0⟩ [⟨some (-5)⟩] 0).1.riskLevel =
      RiskLevel.LOW ∧
    (SafetyManager.checkSafety ⟨50, 100, 5, 1000000, 100, 0, 1, 100, 10⟩
        ⟨⟨false, 0, .emptyReason, 1800000, true⟩, false, 0, 0, ⟨0, 1, 0, 2024⟩, []⟩
        ⟨100⟩ [] ⟨0, 0, 0, 0, 0, 0, 0⟩ [⟨some (-5)⟩] 0).1.circuitBreakerActive =
      false ∧
    (SafetyManager.checkSafety ⟨50, 100, 5, 1000000, 100, 0, 1, 100, 10⟩
        ⟨⟨false, 0, .emptyReason, 1800000, true⟩, false, 0, 0, ⟨0, 1, 0, 2024⟩, []⟩
        ⟨100⟩ [] ⟨0, 0, 0, 0, 0, 0, 0⟩ [⟨some (-5)⟩] 0).2.consecutiveLosses = 1 ∧
    (1 : ℕ) ≥
      (⟨50, 100, 5, 1000000, 100, 0, 1, 100, 10⟩ : SafetyThresholds).maxConsecutiveLosses := by
  refine ⟨?_, ?_, ?_, ?_, ?_⟩ <;>
    norm_num [SafetyManager.checkSafety, SafetyManager.updateConsecutiveLosses,
      totalPositionValue, jsDivGT, SafetyManager.triggerCircuitBreaker,
      SafetyManager.resetCircuitBreaker, List.takeWhile]


/-- C4 (amended): the consecutive-losses warning, its circuit-breaker trigger
and its HIGH level in a `checkSafety` call are governed by the counter stored
from the previous call's `recentTrades`; the trades passed to the current call
only update the stored counter (to the length of their trailing negative-PnL
run) for the next call. -/
theorem C4_consecutiveLosses_lagged (th : SafetyThresholds)
    (st : SafetyManagerState) (accountInfo : BingXAccountInfo)
    (openPositions : List BingXPosition) (riskMetrics : RiskMetrics)
    (recentTrades : List TradeRecord) (now : ℤ)
    (hES : st.emergencyStop = false)
    (hCB : st.circuitBreaker.isActive = true →
      st.circuitBreaker.cooldownPeriod ≤ now - st.circuitBreaker.triggerTime) :
    (SWarning.maxConsecutiveLossesReached st.consecutiveLosses ∈
        (SafetyManager.checkSafety th st accountInfo openPositions riskMetrics
          recentTrades now).1.warnings ↔
      st.consecutiveLosses ≥ th.maxConsecutiveLosses) ∧
    (SafetyManager.checkSafety th st accountInfo openPositions riskMetrics
        recentTrades now).2.consecutiveLosses =
      SafetyManager.updateConsecutiveLosses recentTrades ∧
    (st.consecutiveLosses ≥ th.maxConsecutiveLosses →
      (SafetyManager.checkSafety th st accountInfo openPositions riskMetrics
        recentTrades now).1.circuitBreakerActive = true) ∧
    (st.consecutiveLosses ≥ th.maxConsecutiveLosses →
      riskMetrics.volatility ≤ th.maxVolatility →
      (SafetyManager.checkSafety th st accountInfo openPositions riskMetrics
        recentTrades now).1.riskLevel = RiskLevel.HIGH) := by
  unfold SafetyManager.checkSafety
  rw [if_neg (by simp [hES])]
  cases hA : st.circuitBreaker.isActive with
  | false =>
    rw [if_neg (by simp [hA]), if_neg (by simp [hA])]
    dsimp only
    refine ⟨?_, ?_, ?_, ?_⟩
    · simp [mem_ite_push, mem_ite_single, ge_iff_le]
    · simp
    · intro h
      simp [h, SafetyManager.triggerCircuitBreaker]
    · intro h hvol
      simp [h, not_lt.mpr hvol]
  | true =>
    have hlt : ¬ (now - st.circuitBreaker.triggerTime <
        st.circuitBreaker.cooldownPeriod) := not_lt.mpr (hCB hA)
    rw [if_neg (by simp [hlt])]
    cases hR : st.circuitBreaker.autoReset with
    | false =>
      rw [if_neg (by simp [hR])]
      dsimp only
      refine ⟨?_, ?_, ?_, ?_⟩
      · simp [mem_ite_push, mem_ite_single, ge_iff_le]
      · simp
      · intro h
        simp [h, SafetyManager.triggerCircuitBreaker]
      · intro h hvol
        simp [h, not_lt.mpr hvol]
    | true =>
      rw [if_pos (by simp [hA, hR])]
      dsimp only
      refine ⟨?_, ?_, ?_, ?_⟩
      · simp [mem_ite_push, mem_ite_single, ge_iff_le]
      · simp
      · intro h
        simp [h, SafetyManager.triggerCircuitBreaker]
      · intro h hvol
        simp [h, not_lt.mpr hvol]

/-- C4 witness: the lagged-counter behaviour at a concrete call whose stored
counter (2) is at the limit (1). -/
theorem C4_consecutiveLosses_lagged_witness :
    (SWarning.maxConsecutiveLossesReached
        (⟨⟨false, 0, .emptyReason, 1800000, true⟩, false, 2, 0, ⟨0, 1, 0, 2024⟩,
          []⟩ : SafetyManagerState).consecutiveLosses ∈
        (SafetyManager.checkSafety ⟨50, 100, 5, 1000000, 100, 0, 1, 100, 10⟩
          ⟨⟨false, 0, .emptyReason, 1800000, true⟩, false, 2, 0, ⟨0, 1, 0, 2024⟩, []⟩
          ⟨100⟩ [] ⟨0, 0, 0, 0, 0, 0, 0⟩ [] 0).1.warnings ↔
      (⟨⟨false, 0, .emptyReason, 1800000, true⟩, false, 2, 0, ⟨0, 1, 0, 2024⟩,
        []⟩ : SafetyManagerState).consecutiveLosses ≥
        (⟨50, 100, 5, 1000000, 100, 0, 1, 100, 10⟩ : SafetyThresholds).maxConsecutiveLosses) ∧
    (SafetyManager.checkSafety ⟨50, 100, 5, 1000000, 100, 0, 1, 100, 10⟩
        ⟨⟨false, 0, .emptyReason, 1800000, true⟩, false, 2, 0, ⟨0, 1, 0, 2024⟩, []⟩
        ⟨100⟩ [] ⟨0, 0, 0, 0, 0, 0, 0⟩ [] 0).2.consecutiveLosses =
      SafetyManager.updateConsecutiveLosses [] ∧
    ((⟨⟨false, 0, .emptyReason, 1800000, true⟩, false, 2, 0, ⟨0, 1, 0, 2024⟩,
        []⟩ : SafetyManagerState).consecutiveLosses ≥
        (⟨50, 100, 5, 1000000, 100, 0, 1, 100, 10⟩ : SafetyThresholds).maxConsecutiveLosses →
      (SafetyManager.checkSafety ⟨50, 100, 5, 1000000, 100, 0, 1, 100, 10⟩
        ⟨⟨false, 0, .emptyReason, 1800000, true⟩, false, 2, 0, ⟨0, 1, 0, 2024⟩, []⟩
        ⟨100⟩ [] ⟨0, 0, 0, 0, 0, 0, 0⟩ [] 0).1.circuitBreakerActive = true) ∧
    ((⟨⟨false, 0, .emptyReason, 1800000, true⟩, false, 2, 0, ⟨0, 1, 0, 2024⟩,
        []⟩ : SafetyManagerState).consecutiveLosses ≥
        (⟨50, 100, 5, 1000000, 100, 0, 1, 100, 10⟩ : SafetyThresholds).maxConsecutiveLosses →
      (⟨0, 0, 0, 0, 0, 0, 0⟩ : RiskMetrics).volatility ≤
        (⟨50, 100, 5, 1000000, 100, 0, 1, 100, 10⟩ : SafetyThresholds).maxVolatility →
      (SafetyManager.checkSafety ⟨50, 100, 5, 1000000, 100, 0, 1, 100, 10⟩
        ⟨⟨false, 0, .emptyReason, 1800000, true⟩, false, 2, 0, ⟨0, 1, 0, 2024⟩, []⟩
        ⟨100⟩ [] ⟨0, 0, 0, 0, 0, 0, 0⟩ [] 0).1.riskLevel = RiskLevel.HIGH) :=
  C4_consecutiveLosses_lagged ⟨50, 100, 5, 1000000, 100, 0, 1, 100, 10⟩
    ⟨⟨false, 0, .emptyReason, 1800000, true⟩, false, 2, 0, ⟨0, 1, 0, 2024⟩, []⟩
    ⟨100⟩ [] ⟨0, 0, 0, 0, 0, 0, 0⟩ [] 0 rfl (by decide)

/-- `updateDailyLoss` within the same calendar day only accumulates. -/
theorem updateDailyLoss_sameDay (st : SafetyManagerState) (pnl : ℚ)
    (now : JsDate) (hd : st.lastResetTime.day = now.day)
    (hm : st.lastResetTime.month = now.month)
    (hy : st.lastResetTime.year = now.year) :
    SafetyManager.updateDailyLoss st pnl now =
      { st with dailyLoss := st.dailyLoss + pnl } := by
  unfold SafetyManager.updateDailyLoss
  rw [if_neg]
  push_neg
  exact ⟨hd, hm, hy⟩

/-- A same-day sequence of `updateDailyLoss` calls accumulates the sum of the
pnls and changes nothing else. -/
theorem updateDailyLoss_foldl_sameDay (pnls : List ℚ) (st : SafetyManagerState)
    (now : JsDate) (hd : st.lastResetTime.day = now.day)
    (hm : st.lastResetTime.month = now.month)
    (hy : st.lastResetTime.year = now.year) :
    pnls.foldl (fun s p => SafetyManager.updateDailyLoss s p now) st =
      { st with dailyLoss := st.dailyLoss + pnls.sum } := by
  induction pnls generalizing st with
  | nil => simp
  | cons p ps ih =>
      rw [List.foldl_cons, updateDailyLoss_sameDay st p now hd hm hy,
        ih { st with dailyLoss := st.dailyLoss + p } hd hm hy]
      simp [add_assoc]

/-- C2: the claim fails on the code in two ways.  First, the safety manager
compares the accumulated daily PnL against the absolute threshold
`−maxDailyLoss`, not `−(accountBalance × maxDailyLoss%)`: with balance 10 and
maxDailyLoss 50, a −20 daily PnL is below the claimed threshold (−5) yet
trading stays enabled.  Second, even when the daily-loss check fires, a later
milder check (open-positions at limit) overwrites CRITICAL with HIGH. -/
theorem C2_dailyLoss_counterexample :
    ((SafetyManager.checkSafety ⟨50, 100, 5, 1000000, 100, 0, 10, 100, 10⟩
        (SafetyManager.updateDailyLoss
          ⟨⟨false, 0, .emptyReason, 1800000, true⟩, false, 0, 0, ⟨0, 1, 0, 2024⟩, []⟩
          (-20) ⟨0, 1, 0, 2024⟩)
        ⟨10⟩ [] ⟨0, 0, 0, 0, 0, 0, 0⟩ [] 0).1.isTradingEnabled = true ∧
      (-20 : ℚ) < -(10 * 50 / 100)) ∧
    ((SafetyManager.checkSafety ⟨50, 100, 1, 1000000, 100, 0, 10, 100, 10⟩
        (SafetyManager.updateDailyLoss
          ⟨⟨false, 0, .emptyReason, 1800000, true⟩, false, 0, 0, ⟨0, 1, 0, 2024⟩, []⟩
          (-60) ⟨0, 1, 0, 2024⟩)
        ⟨100⟩ [⟨"BTC-USDT", 1, 1⟩] ⟨0, 0, 0, 0, 0, 0, 0⟩ [] 0).1.isTradingEnabled
        = false ∧
      (SafetyManager.checkSafety ⟨50, 100, 1, 1000000, 100, 0, 10, 100, 10⟩
        (SafetyManager.updateDailyLoss
          ⟨⟨false, 0, .emptyReason, 1800000, true⟩, false, 0, 0, ⟨0, 1, 0, 2024⟩, []⟩
          (-60) ⟨0, 1, 0, 2024⟩)
        ⟨100⟩ [⟨"BTC-USDT", 1, 1⟩] ⟨0, 0, 0, 0, 0, 0, 0⟩ [] 0).1.circuitBreakerActive
        = true ∧
      (SafetyManager.checkSafety ⟨50, 100, 1, 1000000, 100, 0, 10, 100, 10⟩
        (SafetyManager.updateDailyLoss
          ⟨⟨false, 0, .emptyReason, 1800000, true⟩, false, 0, 0, ⟨0, 1, 0, 2024⟩, []⟩
          (-60) ⟨0, 1, 0, 2024⟩)
        ⟨100⟩ [⟨"BTC-USDT", 1, 1⟩] ⟨0, 0, 0, 0, 0, 0, 0⟩ [] 0).1.riskLevel =
        RiskLevel.HIGH ∧
      (-60 : ℚ) < -(100 * 50 / 100)) := by
  refine ⟨⟨?_, by norm_num⟩, ?_, ?_, ?_, by norm_num⟩ <;>
    norm_num [SafetyManager.checkSafety, SafetyManager.updateDailyLoss,
      SafetyManager.updateConsecutiveLosses, totalPositionValue, jsDivGT,
      SafetyManager.triggerCircuitBreaker, SafetyManager.resetCircuitBreaker,
      List.takeWhile]

/-- C2 (amended): a same-day sequence of `updateDailyLoss` calls whose
accumulated daily PnL falls below the absolute threshold `−maxDailyLoss` makes
the next `checkSafety` call (emergency stop off, circuit breaker not in
cooldown) disable trading and activate the circuit breaker; the returned
riskLevel is CRITICAL provided none of the later, milder checks
(open-positions, position-size, consecutive-losses, volatility, leverage)
fires and overwrites it. -/
theorem C2_dailyLoss_circuitBreaker (th : SafetyThresholds)
    (st : SafetyManagerState) (pnls : List ℚ) (nowD : JsDate)
    (accountInfo : BingXAccountInfo) (openPositions : List BingXPosition)
    (riskMetrics : RiskMetrics) (recentTrades : List TradeRecord) (now : ℤ)
    (hd : st.lastResetTime.day = nowD.day)
    (hmo : st.lastResetTime.month = nowD.month)
    (hy : st.lastResetTime.year = nowD.year)
    (hES : st.emergencyStop = false)
    (hCB : st.circuitBreaker.isActive = true →
      st.circuitBreaker.cooldownPeriod ≤ now - st.circuitBreaker.triggerTime)
    (hloss : st.dailyLoss + pnls.sum < -th.maxDailyLoss) :
    (SafetyManager.checkSafety th
        (pnls.foldl (fun s p => SafetyManager.updateDailyLoss s p nowD) st)
        accountInfo openPositions riskMetrics recentTrades now).1.isTradingEnabled
      = false ∧
    (openPositions.length < th.maxOpenPositions →
      totalPositionValue openPositions ≤ th.maxPositionSize →
      st.consecutiveLosses < th.maxConsecutiveLosses →
      riskMetrics.volatility ≤ th.maxVolatility →
      jsDivGT (totalPositionValue openPositions)
        accountInfo.availableBalance th.maxLeverage = false →
      (SafetyManager.checkSafety th
        (pnls.foldl (fun s p => SafetyManager.updateDailyLoss s p nowD) st)
        accountInfo openPositions riskMetrics recentTrades now).1.riskLevel =
        RiskLevel.CRITICAL) ∧
    (SafetyManager.checkSafety th
        (pnls.foldl (fun s p => SafetyManager.updateDailyLoss s p nowD) st)
        accountInfo openPositions riskMetrics recentTrades now).1.circuitBreakerActive
      = true := by
  rw [updateDailyLoss_foldl_sameDay pnls st nowD hd hmo hy]
  unfold SafetyManager.checkSafety
  rw [if_neg (by simp [hES])]
  cases hA : st.circuitBreaker.isActive with
  | false =>
    rw [if_neg (by simp [hA]), if_neg (by simp [hA])]
    dsimp only
    refine ⟨?_, ?_, ?_⟩
    · simp [hloss]
    · intro hc4 hc5 hc6 hc7 hc8
      simp [hloss, hc8, not_lt.mpr hc5, not_le.mpr hc4, not_lt.mpr hc7,
        not_le.mpr hc6]
    · split_ifs <;> simp_all [SafetyManager.triggerCircuitBreaker]
  | true =>
    have hlt : ¬ (now - st.circuitBreaker.triggerTime <
        st.circuitBreaker.cooldownPeriod) := not_lt.mpr (hCB hA)
    rw [if_neg (by simp [hlt])]
    cases hR : st.circuitBreaker.autoReset with
    | false =>
      rw [if_neg (by simp [hR])]
      dsimp only
      refine ⟨?_, ?_, ?_⟩
      · simp [hloss]
      · intro hc4 hc5 hc6 hc7 hc8
        simp [hloss, hc8, not_lt.mpr hc5, not_le.mpr hc4, not_lt.mpr hc7,
          not_le.mpr hc6]
      · split_ifs <;> simp_all [SafetyManager.triggerCircuitBreaker]
    | true =>
      rw [if_pos (by simp [hA, hR])]
      dsimp only
      refine ⟨?_, ?_, ?_⟩
      · simp [hloss]
      · intro hc4 hc5 hc6 hc7 hc8
        simp [hloss, hc8, not_lt.mpr hc5, not_le.mpr hc4, not_lt.mpr hc7,
          not_le.mpr hc6]
      · split_ifs <;> simp_all [SafetyManager.triggerCircuitBreaker]

/-- C2 witness: a fresh manager, one same-day −60 update against an absolute
threshold of 50, and a benign account snapshot. -/
theorem C2_dailyLoss_circuitBreaker_witness :
    (SafetyManager.checkSafety ⟨50, 100, 5, 1000000, 100, 0, 10, 100, 10⟩
        ([(-60 : ℚ)].foldl
          (fun s p => SafetyManager.updateDailyLoss s p ⟨0, 1, 0, 2024⟩)
          ⟨⟨false, 0, .emptyReason, 1800000, true⟩, false, 0, 0, ⟨0, 1, 0, 2024⟩, []⟩)
        ⟨100⟩ [] ⟨0, 0, 0, 0, 0, 0, 0⟩ [] 0).1.isTradingEnabled = false ∧
    (SafetyManager.checkSafety ⟨50, 100, 5, 1000000, 100, 0, 10, 100, 10⟩
        ([(-60 : ℚ)].foldl
          (fun s p => SafetyManager.updateDailyLoss s p ⟨0, 1, 0, 2024⟩)
          ⟨⟨false, 0, .emptyReason, 1800000, true⟩, false, 0, 0, ⟨0, 1, 0, 2024⟩, []⟩)
        ⟨100⟩ [] ⟨0, 0, 0, 0, 0, 0, 0⟩ [] 0).1.riskLevel = RiskLevel.CRITICAL ∧
    (SafetyManager.checkSafety ⟨50, 100, 5, 1000000, 100, 0, 10, 100, 10⟩
        ([(-60 : ℚ)].foldl
          (fun s p => SafetyManager.updateDailyLoss s p ⟨0, 1, 0, 2024⟩)
          ⟨⟨false, 0, .emptyReason, 1800000, true⟩, false, 0, 0, ⟨0, 1, 0, 2024⟩, []⟩)
        ⟨100⟩ [] ⟨0, 0, 0, 0, 0, 0, 0⟩ [] 0).1.circuitBreakerActive = true := by
  have key := C2_dailyLoss_circuitBreaker ⟨50, 100, 5, 1000000, 100, 0, 10, 100, 10⟩
    ⟨⟨false, 0, .emptyReason, 1800000, true⟩, false, 0, 0, ⟨0, 1, 0, 2024⟩, []⟩
    [(-60 : ℚ)] ⟨0, 1, 0, 2024⟩ ⟨100⟩ [] ⟨0, 0, 0, 0, 0, 0, 0⟩ [] 0
    rfl rfl rfl rfl (by decide) (by norm_num)
  exact ⟨key.1,
    key.2.1 (by decide) (by norm_num [totalPositionValue]) (by decide)
      (by norm_num) (by norm_num [totalPositionValue, jsDivGT]),
    key.2.2⟩

/-- The risk-constraint chain of `applyRiskConstraints` keeps the risked amount
(final quantity × price × stop-loss fraction) within the max-risk-per-trade
amount, for a positive price, balance and threshold and a stop-loss percent in
(0, 100]. -/
theorem applyRiskConstraints_bound (rcfg : RiskManagementConfig)
    (request : PositionSizeRequest) (size : ℚ × SizingStrategy)
    (hp : 0 < request.price) (hb : 0 < request.accountBalance)
    (hs0 : 0 < rcfg.stopLossPercent) (hs1 : rcfg.stopLossPercent ≤ 100)
    (hM : 0 < jsNumOr request.maxRiskPerTrade
      (request.accountBalance * rcfg.stopLossPercent / 100)) :
    (PositionSizer.applyRiskConstraints rcfg size request).1 * request.price *
        (rcfg.stopLossPercent / 100) ≤
      jsNumOr request.maxRiskPerTrade
        (request.accountBalance * rcfg.stopLossPercent / 100) := by
  unfold PositionSizer.applyRiskConstraints
  dsimp only
  set p := request.price with hpdef
  set s := rcfg.stopLossPercent with hsdef
  set B := request.accountBalance with hBdef
  set M := jsNumOr request.maxRiskPerTrade (B * s / 100) with hMdef
  set q0 := size.1 with hq0def
  have hps : (0 : ℚ) < p * s / 100 := by positivity
  have key : M / (p * s / 100) * p * (s / 100) = M := by
    field_simp
    ring
  have hMq : (0 : ℚ) < M / (p * s / 100) := div_pos hM hps
  by_cases h1 : q0 * p > M
  · rw [if_pos h1]
    by_cases h2 : M / (p * s / 100) < 1 / 1000
    · rw [if_pos h2]
      by_cases h3 : (0 : ℚ) * p > B * (5 / 100)
      · exfalso
        rw [zero_mul] at h3
        nlinarith
      · rw [if_neg h3]
        simp only [max_self, zero_mul]
        exact hM.le
    · rw [if_neg h2]
      by_cases h3 : M / (p * s / 100) * p > B * (5 / 100)
      · rw [if_pos h3]
        have hx : B * (5 / 100) / p * p * (s / 100) = B * (5 / 100) * (s / 100) := by
          field_simp
          ring
        have hmax : max 0 (B * (5 / 100) / p) = B * (5 / 100) / p := by
          apply max_eq_right
          positivity
        rw [hmax, hx]
        have step : B * (5 / 100) * (s / 100) ≤ M / (p * s / 100) * p * (s / 100) := by
          apply mul_le_mul_of_nonneg_right (le_of_lt h3)
          positivity
        rw [key] at step
        exact step
      · rw [if_neg h3]
        have hmax : max 0 (M / (p * s / 100)) = M / (p * s / 100) :=
          max_eq_right hMq.le
        rw [hmax, key]
  · rw [if_neg h1]
    push_neg at h1
    by_cases h2 : q0 < 1 / 1000
    · rw [if_pos h2]
      by_cases h3 : (0 : ℚ) * p > B * (5 / 100)
      · exfalso
        rw [zero_mul] at h3
        nlinarith
      · rw [if_neg h3]
        simp only [max_self, zero_mul]
        exact hM.le
    · rw [if_neg h2]
      push_neg at h2
      have hq0pos : (0 : ℚ) < q0 := lt_of_lt_of_le (by norm_num) h2
      have htail : q0 * p * (s / 100) ≤ M := by
        have ha : q0 * p * (s / 100) ≤ M * (s / 100) :=
          mul_le_mul_of_nonneg_right h1 (by positivity)
        have hb2 : M * (s / 100) ≤ M * 1 := by
          apply mul_le_mul_of_nonneg_left _ hM.le
          linarith
        linarith
      by_cases h3 : q0 * p > B * (5 / 100)
      · rw [if_pos h3]
        have hx : B * (5 / 100) / p * p * (s / 100) = B * (5 / 100) * (s / 100) := by
          field_simp
          ring
        have hmax : max 0 (B * (5 / 100) / p) = B * (5 / 100) / p := by
          apply max_eq_right
          positivity
        rw [hmax, hx]
        have step : B * (5 / 100) * (s / 100) ≤ q0 * p * (s / 100) := by
          apply mul_le_mul_of_nonneg_right (le_of_lt h3)
          positivity
        linarith
      · rw [if_neg h3]
        rw [max_eq_right hq0pos.le]
        exact htail

/-- C3: for a sizing request with positive price and balance, below the
open-positions limit, and a sensible stop-loss percent, `calculatePositionSize`
succeeds and its risked amount (quantity × price × stopLossPercent/100) never
exceeds `maxRiskPerTrade` (defaulted from the account balance when not
supplied). -/
theorem C3_risked_amount_bounded (cfg : TradingConfig)
    (rcfg : RiskManagementConfig) (pow15 : ℚ → ℚ)
    (request : PositionSizeRequest)
    (hp : 0 < request.price) (hb : 0 < request.accountBalance)
    (hn : request.currentPositions < cfg.maxOpenPositions)
    (hs0 : 0 < rcfg.stopLossPercent) (hs1 : rcfg.stopLossPercent ≤ 100)
    (hsup : ∀ m, request.maxRiskPerTrade = some m → 0 < m) :
    ∃ r, PositionSizer.calculatePositionSize cfg rcfg pow15 request =
        Except.ok r ∧
      r.riskAmount = r.quantity * request.price * (rcfg.stopLossPercent / 100) ∧
      r.riskAmount ≤ jsNumOr request.maxRiskPerTrade
        (request.accountBalance * rcfg.stopLossPercent / 100) := by
  have hM : 0 < jsNumOr request.maxRiskPerTrade
      (request.accountBalance * rcfg.stopLossPercent / 100) := by
    cases hmr : request.maxRiskPerTrade with
    | none =>
        simp only [jsNumOr]
        positivity
    | some m =>
        simp only [jsNumOr]
        by_cases hm0 : m = 0
        · rw [if_pos hm0]
          positivity
        · rw [if_neg hm0]
          exact hsup m hmr
  unfold PositionSizer.calculatePositionSize
  rw [if_neg (not_le.mpr hp), if_neg (not_le.mpr hb), if_neg (not_le.mpr hn)]
  refine ⟨_, rfl, by dsimp only, ?_⟩
  dsimp only
  exact applyRiskConstraints_bound rcfg request _ hp hb hs0 hs1 hM

/-- C3 witness: a concrete request with no explicit max risk (balance default). -/
theorem C3_risked_amount_bounded_witness :
    ∃ r, PositionSizer.calculatePositionSize ⟨2, 3, 10, 5⟩ ⟨2, 2, 4, false, 2⟩
        (fun c => c) ⟨"BTCUSDT", 100, 1, .MEDIUM, 10000, 0, none, none⟩ =
        Except.ok r ∧
      r.riskAmount = r.quantity * (100 : ℚ) * ((2 : ℚ) / 100) ∧
      r.riskAmount ≤ jsNumOr none ((10000 : ℚ) * 2 / 100) :=
  C3_risked_amount_bounded ⟨2, 3, 10, 5⟩ ⟨2, 2, 4, false, 2⟩ (fun c => c)
    ⟨"BTCUSDT", 100, 1, .MEDIUM, 10000, 0, none, none⟩
    (by norm_num) (by norm_num) (by decide) (by norm_num) (by norm_num)
    (by intro m h; exact Option.noConfusion h)
